import Mathlib

/-!
# nano-sandbox command-line front end (`src/main.c`)

A shallow embedding of `main.c`: option parsing, the state-directory helpers and
the lifecycle verbs `create`, `start`, `run`, `delete`, `state`, followed by the
properties proved about them.

Conventions of the embedding.

* C `int` / `pid_t` values are `Int`; failure is the C value `-1`.
* Everything `main.c` calls but does not define (the state store, the bundle
  loader, the executor, `wait`, signals, the file system, `getopt_long`) is a
  field of `Env`, a record of functions over an arbitrary world state `σ`.
  Theorems quantify over every `Env`.
* `World` pairs the world state with the ordered log of the external calls and
  of the lines written to stdout, so that "without calling X" is a statement
  about the log.
* Diagnostics (`nk_log_*`, `nk_stderr`) and allocation failures (`calloc`,
  `strdup` returning NULL) are not modelled.
-/

namespace NanoSandbox

/-! ## Data model (`nk.h`, as used by `main.c`) -/

/-- Modelled from the spec: `nk.h` is not part of the sources; the execution mode
is `container | vm` (spec, data model), with the enumerator names `main.c` uses. -/
inductive nk_execution_mode_t
  | NK_MODE_CONTAINER
  | NK_MODE_VM
  deriving DecidableEq, Repr

/-- Modelled from the spec: `nk.h` is not part of the sources; the lifecycle state
is `created | running | stopped | paused` (spec, data model), with the
enumerator names `main.c` uses. -/
inductive nk_container_state_t
  | NK_STATE_CREATED
  | NK_STATE_RUNNING
  | NK_STATE_STOPPED
  | NK_STATE_PAUSED
  deriving DecidableEq, Repr

open nk_execution_mode_t nk_container_state_t

/-- Modelled from the spec: `nk.h` is not part of the sources, so the integer
value of each enumerator is taken as C numbers an enum listed in the order the
spec gives (`created | running | stopped | paused`). Only one fact is used
below: no enumerator equals `-1`. -/
def nk_container_state_t.toInt : nk_container_state_t → Int
  | NK_STATE_CREATED => 0
  | NK_STATE_RUNNING => 1
  | NK_STATE_STOPPED => 2
  | NK_STATE_PAUSED => 3

/-- Modelled from the spec: `nk.h` is not part of the sources; the container
record has the fields the spec lists, all of which `main.c` reads or writes. -/
structure nk_container_t where
  id : String
  bundle_path : String
  state : nk_container_state_t
  mode : nk_execution_mode_t
  init_pid : Int
  state_file : Option String
  control_fd : Int
  deriving DecidableEq, Repr

/-- Parsed command line (`nk_options_t`, declared in the absent `nk.h`): the
fields `nk_parse_args` fills. `container_id` and `pid_file` are pointers that
may be NULL. -/
structure nk_options_t where
  command : String
  container_id : Option String
  bundle_path : String
  mode : nk_execution_mode_t
  pid_file : Option String
  attach : Bool
  detach : Bool
  rm : Bool
  deriving DecidableEq, Repr

/-- The id handed to the lifecycle functions. `nk_parse_args` never returns 0
for one of the five verbs with a NULL id, so the default is not reached from
`main`. -/
def nk_options_t.id (o : nk_options_t) : String := o.container_id.getD ""

/-! ## `nk_parse_args` -/

/-- One result of `getopt_long`: the returned option code and `optarg`. -/
structure getopt_item where
  opt : Int
  optarg : Option String
  deriving DecidableEq, Repr

/-- What a complete run of the `getopt_long` loop over `argv[2..]` yields: the
codes in the order returned (up to the final `-1`) and the non-option arguments
`argv[optind..argc)` left after permutation. -/
structure getopt_scan where
  items : List getopt_item
  operands : List String
  deriving DecidableEq, Repr

/-- How a call of `nk_parse_args` ends: it returns `code` with the options
filled so far, or the process leaves through `exit(0)` after printing the usage
text (`usage = true`) or the version (`usage = false`). -/
inductive parse_result
  | ret (code : Int) (opts : nk_options_t)
  | exit (status : Int) (usage : Bool)
  deriving DecidableEq, Repr

/-- Options after the initialisation at the top of `nk_parse_args`. -/
def nk_options_init : nk_options_t :=
  { command := "", container_id := none, bundle_path := ".",
    mode := NK_MODE_CONTAINER, pid_file := none,
    attach := false, detach := false, rm := false }

/-- Local variables carried by the option loop. -/
structure parse_state where
  opts : nk_options_t
  attach_set : Bool
  detach_set : Bool
  deriving DecidableEq, Repr

/-- Outcome of the option loop: it ran to the end, or left through `return -1`
or `exit(0)`. -/
inductive loop_result
  | done (s : parse_state)
  | fail (opts : nk_options_t)
  | exit (usage : Bool)
  deriving DecidableEq, Repr

/-- The `while ((opt = getopt_long(...)) != -1) switch (opt)` loop. Codes:
`b`=98, `r`=114, `p`=112, `a`=97, `d`=100, `--rm`=1, `V`=86, `E`=69, `h`=104,
`v`=118; anything else (in particular `?`) takes the `default` branch. -/
def nk_parse_loop : List getopt_item → parse_state → loop_result
  | [], s => .done s
  | it :: rest, s =>
    if it.opt = 98 then
      nk_parse_loop rest { s with opts := { s.opts with bundle_path := it.optarg.getD "" } }
    else if it.opt = 114 then
      if it.optarg = some "container" then
        nk_parse_loop rest { s with opts := { s.opts with mode := NK_MODE_CONTAINER } }
      else if it.optarg = some "vm" then
        nk_parse_loop rest { s with opts := { s.opts with mode := NK_MODE_VM } }
      else .fail s.opts
    else if it.opt = 112 then
      nk_parse_loop rest { s with opts := { s.opts with pid_file := some (it.optarg.getD "") } }
    else if it.opt = 97 then
      nk_parse_loop rest { s with opts := { s.opts with attach := true }, attach_set := true }
    else if it.opt = 100 then
      nk_parse_loop rest { s with opts := { s.opts with detach := true }, detach_set := true }
    else if it.opt = 1 then
      nk_parse_loop rest { s with opts := { s.opts with rm := true } }
    else if it.opt = 86 then nk_parse_loop rest s
    else if it.opt = 69 then nk_parse_loop rest s
    else if it.opt = 104 then .exit true
    else if it.opt = 118 then .exit false
    else .fail s.opts

/-- The "Validate command" block of `nk_parse_args`: `true` when no `return -1`
is taken in it. -/
def nk_parse_validate (opts : nk_options_t) (attach_set detach_set : Bool) : Bool :=
  if opts.command = "create" then
    if attach_set || detach_set || opts.rm then false
    else if opts.container_id.isNone then false
    else true
  else if opts.command = "start" ∨ opts.command = "run" ∨
          opts.command = "delete" ∨ opts.command = "state" then
    if opts.container_id.isNone then false
    else if (opts.command = "delete" ∨ opts.command = "state") ∧
            (attach_set || detach_set || opts.rm) = true then false
    else true
  else false

/-- The part of `nk_parse_args` after the option loop: container id, the
attach/detach exclusion, verb validation and the per-verb defaults. -/
def nk_parse_finish (operands : List String) (s : parse_state) : parse_result :=
  let opts := { s.opts with container_id := operands.head? }
  if s.attach_set && s.detach_set then .ret (-1) opts
  else if !nk_parse_validate opts s.attach_set s.detach_set then .ret (-1) opts
  else if opts.command = "start" then
    if opts.rm then .ret (-1) opts
    else if !s.attach_set && !s.detach_set then .ret 0 { opts with detach := true }
    else .ret 0 opts
  else if opts.command = "run" then
    let opts1 := if !s.attach_set && !s.detach_set then { opts with attach := true } else opts
    if opts1.rm && opts1.detach then .ret (-1) opts1
    else .ret 0 opts1
  else .ret 0 { opts with attach := false, detach := false, rm := false }

/-- Function `nk_parse_args(argc, argv, &opts)`, with `getopt_long` as the parameter
`scan` (applied to the whole `argv`; it starts at `optind = 2`). -/
def nk_parse_args (scan : List String → getopt_scan) (argv : List String) : parse_result :=
  match argv with
  | [] => .ret (-1) nk_options_init
  | [_] => .ret (-1) nk_options_init
  | _ :: a1 :: _ =>
    if a1 = "-h" ∨ a1 = "--help" then .ret 0 { nk_options_init with command := "help" }
    else if a1 = "-v" ∨ a1 = "--version" then .ret 0 { nk_options_init with command := "version" }
    else
      let sc := scan argv
      match nk_parse_loop sc.items { opts := { nk_options_init with command := a1 },
                                     attach_set := false, detach_set := false } with
      | .exit u => .exit 0 u
      | .fail o => .ret (-1) o
      | .done s => nk_parse_finish sc.operands s

/-! ## A reference `getopt_long`

`getopt_long` belongs to the C library. The theorems below hold for every scan
function; this one spells out the GNU behaviour for the option table of
`nk_parse_args` (short options `b:r:p:adVEhv`, the ten long options, argument
permutation, `--` as terminator, unambiguous abbreviations of long options) so
that concrete command lines can be evaluated. -/

/-- The `long_options` table: name, whether an argument is required, value. -/
def long_options : List (List Char × Bool × Int) :=
  [ ("bundle".data, true, 98), ("runtime".data, true, 114), ("pid-file".data, true, 112),
    ("attach".data, false, 97), ("detach".data, false, 100), ("rm".data, false, 1),
    ("verbose".data, false, 86), ("educational".data, false, 69),
    ("help".data, false, 104), ("version".data, false, 118) ]

/-- Resolve a long option name: an exact match wins, otherwise the name must
abbreviate exactly one table entry. -/
def long_lookup (name : List Char) : Option (Bool × Int) :=
  match long_options.filter (fun e => e.1 = name) with
  | e :: _ => some e.2
  | [] =>
    match long_options.filter (fun e => name.isPrefixOf e.1) with
    | [e] => some e.2
    | _ => none

/-- Whether a short option letter is in `b:r:p:adVEhv`, and if so whether it
takes an argument. -/
def short_has_arg (c : Char) : Option Bool :=
  if c = 'b' ∨ c = 'r' ∨ c = 'p' then some true
  else if c = 'a' ∨ c = 'd' ∨ c = 'V' ∨ c = 'E' ∨ c = 'h' ∨ c = 'v' then some false
  else none

/-- Scan one cluster of short options (the text after the leading `-`). The
second component is the code of a final option that still has to take its
argument from the next element of `argv`. -/
def scan_short : List Char → List getopt_item × Option Int
  | [] => ([], none)
  | c :: cs =>
    match short_has_arg c with
    | none => let r := scan_short cs; ({ opt := 63, optarg := none } :: r.1, r.2)
    | some false => let r := scan_short cs; ({ opt := c.toNat, optarg := none } :: r.1, r.2)
    | some true =>
      if cs = [] then ([], some c.toNat)
      else ([{ opt := c.toNat, optarg := some (String.mk cs) }], none)

/-- Scan of one element that starts with `--` (body is the text after it): the
item it yields when no further element is needed, or the code that takes the
next element as its argument. -/
def scan_long (body : List Char) : getopt_item ⊕ Int :=
  let name := body.takeWhile (fun c => c ≠ '=')
  let value := (body.dropWhile (fun c => c ≠ '=')).drop 1
  let hasEq : Bool := body.any (fun c => c = '=')
  match long_lookup name with
  | none => .inl { opt := 63, optarg := none }
  | some (true, v) =>
    if hasEq then .inl { opt := v, optarg := some (String.mk value) } else .inr v
  | some (false, v) =>
    if hasEq then .inl { opt := 63, optarg := none } else .inl { opt := v, optarg := none }

/-- The scan of the elements that follow `argv[1]`. -/
def getopt_scan_from : List String → getopt_scan
  | [] => { items := [], operands := [] }
  | [a] =>
    match a.data with
    | ['-', '-'] => { items := [], operands := [] }
    | '-' :: '-' :: body =>
      match scan_long body with
      | .inl it => { items := [it], operands := [] }
      | .inr _ => { items := [{ opt := 63, optarg := none }], operands := [] }
    | '-' :: c :: cs =>
      let r := scan_short (c :: cs)
      match r.2 with
      | none => { items := r.1, operands := [] }
      | some _ => { items := r.1 ++ [{ opt := 63, optarg := none }], operands := [] }
    | _ => { items := [], operands := [a] }
  | a :: b :: rest =>
    match a.data with
    | ['-', '-'] => { items := [], operands := b :: rest }
    | '-' :: '-' :: body =>
      match scan_long body with
      | .inl it =>
        let r := getopt_scan_from (b :: rest)
        { items := it :: r.items, operands := r.operands }
      | .inr v =>
        let r := getopt_scan_from rest
        { items := { opt := v, optarg := some b } :: r.items, operands := r.operands }
    | '-' :: c :: cs =>
      let s := scan_short (c :: cs)
      match s.2 with
      | none =>
        let r := getopt_scan_from (b :: rest)
        { items := s.1 ++ r.items, operands := r.operands }
      | some v =>
        let r := getopt_scan_from rest
        { items := s.1 ++ { opt := v, optarg := some b } :: r.items, operands := r.operands }
    | _ =>
      let r := getopt_scan_from (b :: rest)
      { items := r.items, operands := a :: r.operands }

/-- GNU `getopt_long` run over `argv` from `optind = 2`. -/
def getopt_long_gnu (argv : List String) : getopt_scan := getopt_scan_from (argv.drop 2)

/-! ## OCI spec and execution context (`nk_oci.h`, `nk_container.h`) -/

/-- One `linux.namespaces` entry of the OCI spec. -/
structure nk_oci_namespace_t where
  type : String
  path : Option String
  deriving DecidableEq, Repr

/-- The `root` object of the OCI spec. -/
structure nk_oci_root_t where
  path : String
  deriving DecidableEq, Repr

/-- The `process` object of the OCI spec. -/
structure nk_oci_process_t where
  args : List String
  env : List String
  cwd : Option String
  terminal : Bool
  deriving DecidableEq, Repr

/-- The `linux` object of the OCI spec; `namespaces` may be a NULL array. -/
structure nk_oci_linux_t where
  namespaces : Option (List nk_oci_namespace_t)
  deriving DecidableEq, Repr

/-- The loaded OCI spec (`nk_oci_spec_t`); each member is a pointer that may be
NULL. -/
structure nk_oci_spec_t where
  root : Option nk_oci_root_t
  process : Option nk_oci_process_t
  linux_config : Option nk_oci_linux_t
  deriving DecidableEq, Repr

/-- Namespace kinds (`nk_namespace_type_t`). -/
inductive nk_namespace_type_t
  | NK_NS_PID | NK_NS_NETWORK | NK_NS_IPC | NK_NS_UTS | NK_NS_MOUNT | NK_NS_USER | NK_NS_CGROUP
  deriving DecidableEq, Repr

/-- One namespace of the execution context. `type = none` stands for the value
`calloc` left in place when the type string matched none of the seven names. -/
structure nk_namespace_config_t where
  type : Option nk_namespace_type_t
  path : Option String
  enable : Bool
  deriving DecidableEq, Repr

/-- The execution context handed to the executor (`nk_container_ctx_t`); the
mounts are always empty and the cgroup configuration always zeroed. -/
structure nk_container_ctx_t where
  rootfs : String
  namespaces : List nk_namespace_config_t
  args : List String
  env : List String
  cwd : String
  terminal : Bool
  deriving DecidableEq, Repr

/-! ## The environment and the world -/

/-- An external call made by `main.c`, or a line printed on stdout. The executor
and the wait are logged with what they returned. -/
inductive Call
  | stat (path : String)
  | mkdir (path : String) (mode : Nat)
  | nk_state_exists (id : String)
  | nk_state_load (id : String)
  | nk_state_save (c : nk_container_t)
  | nk_state_delete (id : String)
  | nk_oci_spec_load (bundle : String)
  | nk_oci_spec_validate (spec : nk_oci_spec_t)
  | nk_container_exec (ctx : nk_container_ctx_t) (ret : Int)
  | nk_container_wait (pid : Int) (ret : Int) (status : Int)
  | nk_container_signal (pid : Int) (sig : Int)
  | kill (pid : Int) (sig : Int)
  | usleep (usec : Nat)
  | nk_cgroup_cleanup (id : String)
  | fopen_w (path : String)
  | fprintf_file (path : String) (text : String)
  | stdout (text : String)
  | print_usage
  | print_version
  deriving DecidableEq, Repr

/-- Everything `main.c` calls without defining it, as functions of a world
state `σ`. Reads return a value; calls with an effect also return the next
world state. Return values are the C ones (`0` / `-1`, a pid, NULL as `none`). -/
structure Env (σ : Type) where
  getopt_long : List String → getopt_scan
  getenv : σ → String → Option String
  geteuid : σ → Nat
  /-- Call `stat(path, &st)`: the return value and `S_ISDIR(st.st_mode)`. -/
  stat : σ → String → Int × Bool
  /-- Call `mkdir(path, mode)`: the return value and `errno`. -/
  mkdir : σ → String → Nat → Int × Int × σ
  nk_state_exists : σ → String → Bool
  nk_state_load : σ → String → Option nk_container_t
  nk_state_save : σ → nk_container_t → Int × σ
  nk_state_delete : σ → String → Int × σ
  nk_oci_spec_load : σ → String → Option nk_oci_spec_t
  nk_oci_spec_validate : nk_oci_spec_t → Bool
  nk_container_exec : σ → nk_container_ctx_t → Int × σ
  /-- Call `nk_container_wait(pid, &status)`: the return value and the wait status. -/
  nk_container_wait : σ → Int → Int × Int × σ
  nk_container_signal : σ → Int → Int → Int × σ
  kill : σ → Int → Int → Int × σ
  usleep : σ → Nat → σ
  nk_cgroup_cleanup : σ → String → σ
  /-- Call `fopen(path, "w")`: whether a stream was returned. -/
  fopen_w : σ → String → Bool × σ
  /-- Call `fprintf(f, ...)` followed by `fclose(f)` on the stream opened on `path`. -/
  fprintf_file : σ → String → String → σ

/-- World state together with the log of calls made so far (oldest first). -/
structure World (σ : Type) where
  st : σ
  log : List Call
  deriving DecidableEq

/-- Record a call that does not change the world state. -/
def World.note {σ : Type} (w : World σ) (c : Call) : World σ :=
  { w with log := w.log ++ [c] }

/-- Record a call and move to the world state it leaves. -/
def World.step {σ : Type} (w : World σ) (c : Call) (s : σ) : World σ :=
  { st := s, log := w.log ++ [c] }

/-! ## Constants -/

/-- Constant `PATH_MAX` of `<limits.h>` on Linux. -/
def PATH_MAX : Nat := 4096

/-- Constant `EEXIST` of `<errno.h>` on Linux. -/
def EEXIST : Int := 17

/-- Constant `SIGTERM` of `<signal.h>`. -/
def SIGTERM : Int := 15

/-- Constant `SIGKILL` of `<signal.h>`. -/
def SIGKILL : Int := 9

/-- State directory used when the effective uid is 0. -/
def NS_STATE_DIR_ROOT : String := "/run/nano-sandbox"

/-- Suffix appended to `$HOME` for the per-user state directory. -/
def NS_STATE_DIR_USER_SUFFIX : String := "/.local/share/nano-sandbox/run"

/-! ## Wait-status macros (`<sys/wait.h>`, glibc) -/

/-- Macro `WTERMSIG(s)` is `s & 0x7f`. -/
def WTERMSIG (s : Int) : Int := s % 128

/-- Macro `WIFEXITED(s)` is `WTERMSIG(s) == 0`. -/
def WIFEXITED (s : Int) : Bool := WTERMSIG s = 0

/-- Macro `WEXITSTATUS(s)` is `(s & 0xff00) >> 8`. -/
def WEXITSTATUS (s : Int) : Int := (s % 65536) / 256

/-- Macro `WIFSIGNALED(s)` is `((signed char) ((s & 0x7f) + 1) >> 1) > 0`. -/
def WIFSIGNALED (s : Int) : Bool :=
  let v := s % 128 + 1
  let sc := if v ≥ 128 then v - 256 else v
  sc / 2 > 0

/-! ## State directory (`get_state_dir`, `mkdir_p`, `ensure_state_dir`) -/

/-- Value of an environment variable when it is set and not the empty string
(the test `dir && dir[0] != 0`). -/
def getenv_nonempty {σ : Type} (env : Env σ) (s : σ) (name : String) : Option String :=
  (env.getenv s name).filter (fun v => v ≠ "")

/-- Function `get_state_dir()`. The `snprintf` into `user_dir[PATH_MAX]` succeeds
when the byte count `n` satisfies `0 < n < PATH_MAX`. -/
def get_state_dir {σ : Type} (env : Env σ) (s : σ) : String :=
  match getenv_nonempty env s "NS_RUN_DIR" with
  | some dir => dir
  | none =>
    match getenv_nonempty env s "NK_RUN_DIR" with
    | some dir => dir
    | none =>
      if env.geteuid s = 0 then NS_STATE_DIR_ROOT
      else
        match getenv_nonempty env s "HOME" with
        | some home =>
          let n := home.utf8ByteSize + NS_STATE_DIR_USER_SUFFIX.utf8ByteSize
          if 0 < n ∧ n < PATH_MAX then home ++ NS_STATE_DIR_USER_SUFFIX else "run"
        | none => "run"

/-- The `for (p = tmp + 1; *p; p++)` loop of `mkdir_p`: `pre` is the text before
`p`, the second list the text from `p` on. Each `/` creates the directory named
by `pre`; a failure other than `EEXIST` aborts. -/
def mkdir_p_loop {σ : Type} (env : Env σ) (mode : Nat) :
    List Char → List Char → World σ → Int × World σ
  | _, [], w => (0, w)
  | pre, c :: cs, w =>
    if c = '/' then
      let r := env.mkdir w.st (String.mk pre) mode
      let w1 := w.step (.mkdir (String.mk pre) mode) r.2.2
      if r.1 = -1 ∧ r.2.1 ≠ EEXIST then (-1, w1)
      else mkdir_p_loop env mode (pre ++ [c]) cs w1
    else mkdir_p_loop env mode (pre ++ [c]) cs w

/-- Function `mkdir_p(path, mode)`. -/
def mkdir_p {σ : Type} (env : Env σ) (path : String) (mode : Nat) (w : World σ) :
    Int × World σ :=
  if path = "" then (-1, w)
  else
    let len := min path.utf8ByteSize PATH_MAX
    if len = 0 ∨ len ≥ PATH_MAX then (-1, w)
    else
      let tmp := if path.data.getLast? = some '/' then path.data.dropLast else path.data
      let r := mkdir_p_loop env mode (tmp.take 1) (tmp.drop 1) w
      if r.1 = -1 then (-1, r.2)
      else
        let m := env.mkdir r.2.st (String.mk tmp) mode
        let w2 := r.2.step (.mkdir (String.mk tmp) mode) m.2.2
        if m.1 = -1 ∧ m.2.1 ≠ EEXIST then (-1, w2) else (0, w2)

/-- Function `ensure_state_dir()`; the mode `0755` is 493. -/
def ensure_state_dir {σ : Type} (env : Env σ) (w : World σ) : Int × World σ :=
  let state_dir := get_state_dir env w.st
  let st := env.stat w.st state_dir
  let w1 := w.note (.stat state_dir)
  if st.1 = 0 then
    if st.2 then (0, w1) else (-1, w1)
  else
    let r := mkdir_p env state_dir 493 w1
    if r.1 = -1 then (-1, r.2) else (0, r.2)

/-! ## PID file -/

/-- Function `write_pid_file(pid_file, pid)`. -/
def write_pid_file {σ : Type} (env : Env σ) (pid_file : Option String) (pid : Int)
    (w : World σ) : Int × World σ :=
  match pid_file with
  | none => (0, w)
  | some path =>
    if path = "" then (0, w)
    else
      let f := env.fopen_w w.st path
      let w1 := w.step (.fopen_w path) f.2
      if !f.1 then (-1, w1)
      else
        let text := toString pid ++ "\n"
        (0, w1.step (.fprintf_file path text) (env.fprintf_file w1.st path text))

/-- Function `write_container_pid_file(pid_file, container_id)`. -/
def write_container_pid_file {σ : Type} (env : Env σ) (pid_file : Option String)
    (container_id : String) (w : World σ) : Int × World σ :=
  match pid_file with
  | none => (0, w)
  | some path =>
    let w1 := w.note (.nk_state_load container_id)
    match env.nk_state_load w1.st container_id with
    | none => (-1, w1)
    | some container =>
      if container.init_pid ≤ 0 then (-1, w1)
      else write_pid_file env (some path) container.init_pid w1

/-! ## Lifecycle verbs -/

/-- The record `nk_container_create` fills in after `calloc` (steps 4 and 4a):
`state_file` stays NULL. -/
def created_record (opts : nk_options_t) : nk_container_t :=
  { id := opts.id, bundle_path := opts.bundle_path, state := NK_STATE_CREATED,
    mode := opts.mode, init_pid := 0, state_file := none, control_fd := -1 }

/-- Function `nk_container_create(opts)`. -/
def nk_container_create {σ : Type} (env : Env σ) (opts : nk_options_t) (w : World σ) :
    Int × World σ :=
  let e := ensure_state_dir env w
  if e.1 = -1 then (-1, e.2)
  else
    let w1 := e.2.note (.nk_state_exists opts.id)
    if env.nk_state_exists w1.st opts.id then (-1, w1)
    else
      let w2 := w1.note (.nk_oci_spec_load opts.bundle_path)
      match env.nk_oci_spec_load w2.st opts.bundle_path with
      | none => (-1, w2)
      | some spec =>
        let w3 := w2.note (.nk_oci_spec_validate spec)
        if !env.nk_oci_spec_validate spec then (-1, w3)
        else
          let root := match spec.root with
            | some r => r.path
            | none => "none"
          let w4 := (w3.note (.stdout ("  Bundle: " ++ opts.bundle_path ++ "\n"))).note
            (.stdout ("  Root: " ++ root ++ "\n"))
          let container := created_record opts
          let sv := env.nk_state_save w4.st container
          let w5 := w4.step (.nk_state_save container) sv.2
          if sv.1 = -1 then (-1, w5)
          else (0, w5.note (.stdout "  Status: created\n"))

/-- The `strcmp` chain of `nk_container_start` mapping a namespace type name. -/
def namespace_type_of (type : String) : Option nk_namespace_type_t :=
  if type = "pid" then some .NK_NS_PID
  else if type = "network" then some .NK_NS_NETWORK
  else if type = "ipc" then some .NK_NS_IPC
  else if type = "uts" then some .NK_NS_UTS
  else if type = "mount" then some .NK_NS_MOUNT
  else if type = "user" then some .NK_NS_USER
  else if type = "cgroup" then some .NK_NS_CGROUP
  else none

/-- Longest run of leading characters that fits in `n` bytes of UTF-8. -/
def take_bytes : Nat → List Char → List Char
  | _, [] => []
  | n, c :: cs => if c.utf8Size ≤ n then c :: take_bytes (n - c.utf8Size) cs else []

/-- Result of `snprintf(buf, cap, ...)` for the formatted text `s`: at most
`cap - 1` bytes are kept. (C cuts at the byte; the model cuts at the last whole
character that fits.) -/
def snprintf_buf (cap : Nat) (s : String) : String := String.mk (take_bytes (cap - 1) s.data)

/-- The execution context `nk_container_start` builds from the record and the
spec (step 3 of the function). -/
def build_ctx (container : nk_container_t) (spec : nk_oci_spec_t)
    (process : nk_oci_process_t) (root : nk_oci_root_t) : nk_container_ctx_t :=
  { rootfs := snprintf_buf PATH_MAX (container.bundle_path ++ "/" ++ root.path),
    namespaces :=
      match spec.linux_config with
      | some lc =>
        match lc.namespaces with
        | some nss =>
          nss.map (fun ns => { type := namespace_type_of ns.type, path := ns.path, enable := true })
        | none => []
      | none => [],
    args := process.args,
    env := process.env,
    cwd := process.cwd.getD "/",
    terminal := process.terminal }

/-- Translation of the wait status in attached `nk_container_start`:
`exit_code` starts at 0 and is set in the `WIFEXITED` / `WIFSIGNALED` branches. -/
def wait_exit_code (wait_status : Int) : Int :=
  if WIFEXITED wait_status then WEXITSTATUS wait_status
  else if WIFSIGNALED wait_status then 128 + WTERMSIG wait_status
  else 0

/-- What `nk_container_start` hands back: the return value, the value stored
through `container_exit_code` (`none` when nothing is stored) and the world. -/
structure start_result (σ : Type) where
  ret : Int
  exit_code : Option Int
  w : World σ
  deriving DecidableEq

/-- Function `nk_container_start(container_id, attach, &exit_code)`. -/
def nk_container_start {σ : Type} (env : Env σ) (container_id : String) (attach : Bool)
    (w : World σ) : start_result σ :=
  let w1 := w.note (.nk_state_load container_id)
  match env.nk_state_load w1.st container_id with
  | none => { ret := -1, exit_code := none, w := w1 }
  | some container =>
    if container.state ≠ NK_STATE_CREATED then { ret := -1, exit_code := none, w := w1 }
    else if container.mode = NK_MODE_VM then { ret := -1, exit_code := none, w := w1 }
    else
      let w2 := w1.note (.nk_oci_spec_load container.bundle_path)
      match env.nk_oci_spec_load w2.st container.bundle_path with
      | none => { ret := -1, exit_code := none, w := w2 }
      | some spec =>
        match spec.process, spec.root with
        | some process, some root =>
          let ctx := build_ctx container spec process root
          let w3 := w2.note (.stdout ("  Executing: " ++ ctx.args.headD "(null)" ++ "\n"))
          let ex := env.nk_container_exec w3.st ctx
          let w4 := w3.step (.nk_container_exec ctx ex.1) ex.2
          let pid := ex.1
          if pid = -1 then { ret := -1, exit_code := none, w := w4 }
          else
            let running := { container with state := NK_STATE_RUNNING, init_pid := pid }
            let sv := env.nk_state_save w4.st running
            let w5 := (w4.step (.nk_state_save running) sv.2).note
              (.stdout ("  Status: running (PID: " ++ toString pid ++ ")\n"))
            if !attach then
              { ret := 0, exit_code := some 0,
                w := w5.note (.stdout "  Mode: detached (like docker start)\n") }
            else
              let w6 := w5.note (.stdout "  Mode: attached (waiting for container process)\n")
              let wt := env.nk_container_wait w6.st pid
              let w7 := w6.step (.nk_container_wait pid wt.1 wt.2.1) wt.2.2
              if wt.1 = -1 then { ret := -1, exit_code := none, w := w7 }
              else
                let exit_code := wait_exit_code wt.2.1
                let stopped := { running with state := NK_STATE_STOPPED, init_pid := 0 }
                let sv2 := env.nk_state_save w7.st stopped
                let w8 := (w7.step (.nk_state_save stopped) sv2.2).note
                  (.stdout ("  Status: stopped (exit code: " ++ toString exit_code ++ ")\n"))
                { ret := 0, exit_code := some exit_code, w := w8 }
        | _, _ => { ret := -1, exit_code := none, w := w2 }

/-- Function `nk_container_delete(container_id)`. -/
def nk_container_delete {σ : Type} (env : Env σ) (container_id : String) (w : World σ) :
    Int × World σ :=
  let w0 := w.note (.stdout ("Deleting container '" ++ container_id ++ "'\n"))
  let w1 := w0.note (.nk_state_load container_id)
  match env.nk_state_load w1.st container_id with
  | none => (-1, w1)
  | some container =>
    let w2 :=
      if container.state = NK_STATE_RUNNING ∧ container.init_pid > 0 then
        let wa := w1.note
          (.stdout ("  Stopping container (PID: " ++ toString container.init_pid ++ ")\n"))
        let sg := env.nk_container_signal wa.st container.init_pid SIGTERM
        let wb := wa.step (.nk_container_signal container.init_pid SIGTERM) sg.2
        if sg.1 = 0 then
          let wc := wb.step (.usleep 100000) (env.usleep wb.st 100000)
          let k := env.kill wc.st container.init_pid 0
          let wd := wc.step (.kill container.init_pid 0) k.2
          if k.1 = 0 then
            let we := wd.note (.stdout "  Force killing...\n")
            we.step (.nk_container_signal container.init_pid SIGKILL)
              (env.nk_container_signal we.st container.init_pid SIGKILL).2
          else wd
        else wb
      else w1
    let w3 := w2.step (.nk_cgroup_cleanup container_id) (env.nk_cgroup_cleanup w2.st container_id)
    let d := env.nk_state_delete w3.st container_id
    let w4 := w3.step (.nk_state_delete container_id) d.2
    (0, w4.note (.stdout "  Status: deleted\n"))

/-- Function `nk_container_run(opts)`; `exit_code` is the local initialised to 0
that `nk_container_start` may overwrite. -/
def nk_container_run {σ : Type} (env : Env σ) (opts : nk_options_t) (w : World σ) :
    Int × World σ :=
  if opts.container_id.isNone then (-1, w)
  else
    let c := nk_container_create env opts w
    if c.1 = -1 then (-1, c.2)
    else
      let s := nk_container_start env opts.id opts.attach c.2
      let exit_code := s.exit_code.getD 0
      if s.ret = -1 then
        if opts.rm then (-1, (nk_container_delete env opts.id s.w).2)
        else (-1, s.w)
      else if opts.rm then
        let d := nk_container_delete env opts.id s.w
        if d.1 = -1 then (-1, d.2)
        else (if opts.attach then exit_code else 0, d.2)
      else (if opts.attach then exit_code else 0, s.w)

/-- Function `nk_container_state(container_id)`: the stored state as the integer
of its enumerator, or `-1` when no record is loaded. -/
def nk_container_state {σ : Type} (env : Env σ) (container_id : String) (w : World σ) :
    Int × World σ :=
  let w1 := w.note (.nk_state_load container_id)
  match env.nk_state_load w1.st container_id with
  | none => (-1, w1)
  | some container => (container.state.toInt, w1)

/-- The `switch (state)` of `main` choosing the text to print. -/
def state_str (state : Int) : String :=
  if state = NK_STATE_CREATED.toInt then "created"
  else if state = NK_STATE_RUNNING.toInt then "running"
  else if state = NK_STATE_STOPPED.toInt then "stopped"
  else if state = NK_STATE_PAUSED.toInt then "paused"
  else "unknown"

/-- Function `main(argc, argv)`: the exit status it produces (the value it
returns, or the argument of `exit` when the parser leaves through `exit(0)`)
and the final world. The value is the C `int`; the parent process sees it
modulo 256. -/
def main {σ : Type} (env : Env σ) (argv : List String) (w : World σ) : Int × World σ :=
  match nk_parse_args env.getopt_long argv with
  | .exit status usage => (status, w.note (if usage then .print_usage else .print_version))
  | .ret code opts =>
    if code = -1 then (1, w.note .print_usage)
    else if opts.command = "help" then (0, w.note .print_usage)
    else if opts.command = "version" then (0, w.note .print_version)
    else if opts.command = "create" then nk_container_create env opts w
    else if opts.command = "start" then
      let s := nk_container_start env opts.id opts.attach w
      let exit_code := s.exit_code.getD 0
      let r :=
        if s.ret = 0 ∧ opts.pid_file.isSome ∧ opts.detach = true then
          write_container_pid_file env opts.pid_file opts.id s.w
        else (s.ret, s.w)
      if r.1 = 0 ∧ opts.attach = true then (exit_code, r.2) else r
    else if opts.command = "run" then
      let r := nk_container_run env opts w
      if r.1 = 0 ∧ opts.pid_file.isSome ∧ opts.detach = true then
        write_container_pid_file env opts.pid_file opts.id r.2
      else r
    else if opts.command = "delete" then nk_container_delete env opts.id w
    else if opts.command = "state" then
      let st := nk_container_state env opts.id w
      (0, st.2.note (.stdout (state_str st.1 ++ "\n")))
    else (0, w)

/-! ## A simulated environment

A small concrete instance of `Env`, used to run the verbs on explicit inputs.
The store is a list of records kept in a state directory that may be absent
(`dir = none`), a directory (`some true`) or a plain file (`some false`). -/

/-- World state of the simulation. -/
structure Sim where
  dir : Option Bool
  records : List nk_container_t
  deriving DecidableEq, Repr

/-- The simulated environment. `spec` is what every bundle loads to, `pid` what
the executor returns, `wt` the return value and status of the wait; with
`wipe` the state directory is removed by someone else while the wait blocks,
and with `save_ok = false` every save fails. -/
def sim_env (spec : Option nk_oci_spec_t) (pid : Int) (wt : Int × Int) (wipe : Bool)
    (save_ok : Bool) : Env Sim :=
  { getopt_long := getopt_long_gnu,
    getenv := fun _ name => if name = "NS_RUN_DIR" then some "/tmp/ns" else none,
    geteuid := fun _ => 1000,
    stat := fun s _ =>
      match s.dir with
      | none => (-1, false)
      | some d => (0, d),
    mkdir := fun s path _ =>
      if path = "/tmp/ns" then
        (match s.dir with
         | none => (0, 0, { s with dir := some true })
         | some _ => (-1, EEXIST, s))
      else (-1, EEXIST, s),
    nk_state_exists := fun s id => s.dir = some true ∧ s.records.any (fun c => c.id = id),
    nk_state_load := fun s id =>
      if s.dir = some true then s.records.find? (fun c => c.id = id) else none,
    nk_state_save := fun s c =>
      if s.dir = some true ∧ save_ok = true then
        (0, { s with records := c :: s.records.filter (fun r => r.id ≠ c.id) })
      else (-1, s),
    nk_state_delete := fun s id =>
      if s.dir = some true ∧ s.records.any (fun c => c.id = id) then
        (0, { s with records := s.records.filter (fun r => r.id ≠ id) })
      else (-1, s),
    nk_oci_spec_load := fun _ _ => spec,
    nk_oci_spec_validate := fun sp =>
      match sp.root, sp.process with
      | some _, some p => !p.args.isEmpty
      | _, _ => false,
    nk_container_exec := fun s _ => (pid, s),
    nk_container_wait := fun s _ => (wt.1, wt.2, if wipe then { dir := none, records := [] } else s),
    nk_container_signal := fun s _ _ => (0, s),
    kill := fun s _ _ => (-1, s),
    usleep := fun s _ => s,
    nk_cgroup_cleanup := fun s _ => s,
    fopen_w := fun s _ => (true, s),
    fprintf_file := fun s _ _ => s }

/-- A minimal valid bundle: `/bin/sh -c "exit 7"` under `rootfs`. -/
def sim_spec : nk_oci_spec_t :=
  { root := some { path := "rootfs" },
    process := some { args := ["/bin/sh", "-c", "exit 7"], env := [], cwd := none,
                      terminal := false },
    linux_config := none }

/-- An empty state directory that exists. -/
def sim_empty : World Sim := { st := { dir := some true, records := [] }, log := [] }

/-- A record for container `c1` in the given state. -/
def sim_record (state : nk_container_state_t) (mode : nk_execution_mode_t) (pid : Int) :
    nk_container_t :=
  { id := "c1", bundle_path := "./bundle", state := state, mode := mode, init_pid := pid,
    state_file := none, control_fd := -1 }

/-- A state directory holding the single record `r`. -/
def sim_with (r : nk_container_t) : World Sim :=
  { st := { dir := some true, records := [r] }, log := [] }

/-- Options of `prog create -b ./bundle c1`. -/
def sim_create_opts : nk_options_t :=
  { nk_options_init with command := "create", container_id := some "c1",
                         bundle_path := "./bundle" }

/-- Options of `prog run --rm c1`. -/
def sim_run_rm_opts : nk_options_t :=
  { nk_options_init with command := "run", container_id := some "c1", attach := true,
                         rm := true }

/-- Options of `prog start c1`. -/
def sim_start_opts : nk_options_t :=
  { nk_options_init with command := "start", container_id := some "c1", detach := true }

/-- A state directory path that exists but is a plain file, not a directory. -/
def sim_not_a_dir : World Sim := { st := { dir := some false, records := [] }, log := [] }

/-- The simulation with a `nk_container_signal` that fails (returns `sig_ret`)
and a liveness probe `kill(pid, 0)` that returns `kill_ret`. -/
def sim_env_signals (sig_ret kill_ret : Int) : Env Sim :=
  { sim_env (some sim_spec) 4242 (0, 0) false true with
    nk_container_signal := fun s _ _ => (sig_ret, s),
    kill := fun s _ _ => (kill_ret, s) }

/-- The simulation with the environment variables `vars` and effective uid
`euid`. -/
def sim_env_vars (vars : String → Option String) (euid : Nat) : Env Sim :=
  { sim_env (some sim_spec) 4242 (0, 0) false true with
    getenv := fun _ name => vars name,
    geteuid := fun _ => euid }

/-- Options of `prog run --rm -b ./bundle c1` (attached). -/
def sim_run_rm_bundle_opts : nk_options_t :=
  { nk_options_init with command := "run", container_id := some "c1",
                         bundle_path := "./bundle", attach := true, rm := true }

/-- Calls made by `ensure_state_dir`: `stat` and `mkdir`. -/
def Call.is_fs : Call → Bool
  | .stat _ => true
  | .mkdir _ _ => true
  | _ => false

/-- The record `nk_container_start` saves after the executor returned `pid`. -/
def running_record (c : nk_container_t) (pid : Int) : nk_container_t :=
  { c with state := NK_STATE_RUNNING, init_pid := pid }

/-- The record attached `nk_container_start` saves after the wait. -/
def stopped_record (c : nk_container_t) : nk_container_t :=
  { c with state := NK_STATE_STOPPED, init_pid := 0 }

/-- Modelled from the spec: `nk_container_exec` is not part of the sources; the
spec gives the executor the contract `exec(ctx) → pid | error`, so it returns
-1 or the pid of the init process, which is positive. -/
def executor_contract {σ : Type} (env : Env σ) : Prop :=
  ∀ (s : σ) (ctx : nk_container_ctx_t),
    (env.nk_container_exec s ctx).1 = -1 ∨ 0 < (env.nk_container_exec s ctx).1

/-- World `w2` is `w1` after some further `stat` / `mkdir` calls. -/
def fs_extends {σ : Type} (w1 w2 : World σ) : Prop :=
  ∃ l, w2.log = w1.log ++ l ∧ ∀ c ∈ l, c.is_fs = true

/-- The state store round-trips records: a load that follows a successful save
returns the saved fields (the persisted ones: id, bundle path, state, mode and
init pid). -/
def store_round_trips {σ : Type} (env : Env σ) : Prop :=
  ∀ (s s' : σ) (c : nk_container_t), env.nk_state_save s c = (0, s') →
    ∃ c', env.nk_state_load s' c.id = some c' ∧ c'.id = c.id ∧
      c'.bundle_path = c.bundle_path ∧ c'.state = c.state ∧ c'.mode = c.mode ∧
      c'.init_pid = c.init_pid

/-- Calls that tear a container down: signals, the liveness probe, cgroup
cleanup and removal of the record. They are made by `nk_container_delete` only. -/
def Call.is_teardown : Call → Bool
  | .nk_container_signal _ _ => true
  | .kill _ _ => true
  | .nk_cgroup_cleanup _ => true
  | .nk_state_delete _ => true
  | _ => false

/-- Calls that touch the PID file: `fopen` for writing and the `fprintf`. -/
def Call.is_pid_file : Call → Bool
  | .fopen_w _ => true
  | .fprintf_file _ _ => true
  | _ => false

/-- World `w2` is `w1` after some further calls, each of which satisfies `P`. -/
def log_extends {σ : Type} (P : Call → Prop) (w1 w2 : World σ) : Prop :=
  ∃ l, w2.log = w1.log ++ l ∧ ∀ c ∈ l, P c

/-- An environment variable counts as set when it is present and not empty. -/
def env_is_set (v : Option String) : Bool := v.isSome && v != some ""

/-- The state directory as the specification words it: `NS_RUN_DIR` when set,
otherwise `NK_RUN_DIR` when set, otherwise `/run/nano-sandbox` for euid 0,
otherwise `$HOME/.local/share/nano-sandbox/run` when `HOME` is set and the
result (with its terminating NUL) fits in `PATH_MAX` bytes, otherwise `run`. -/
def state_dir_spec (ns_run_dir nk_run_dir home : Option String) (euid : Nat) : String :=
  if env_is_set ns_run_dir then ns_run_dir.getD ""
  else if env_is_set nk_run_dir then nk_run_dir.getD ""
  else if euid = 0 then "/run/nano-sandbox"
  else if env_is_set home ∧
      (home.getD "" ++ "/.local/share/nano-sandbox/run").utf8ByteSize < PATH_MAX then
    home.getD "" ++ "/.local/share/nano-sandbox/run"
  else "run"

/-- Whether the `switch` of the option loop accepts the item and goes on to the
next one (its case ends in `break`): every code but `h`, `v` and the unknown
ones, with a valid mode for `r`. -/
def item_accepted (it : getopt_item) : Bool :=
  it.opt = 98 ∨ (it.opt = 114 ∧ (it.optarg = some "container" ∨ it.optarg = some "vm")) ∨
  it.opt = 112 ∨ it.opt = 97 ∨ it.opt = 100 ∨ it.opt = 1 ∨ it.opt = 86 ∨ it.opt = 69

/-- State of the option loop when it starts, for the verb `a1`. -/
def parse_state_init (a1 : String) : parse_state :=
  { opts := { nk_options_init with command := a1 }, attach_set := false, detach_set := false }

/-- Whether `argv[1]` is one of the four spellings tested before the verb is
read. -/
def is_help_or_version (a1 : String) : Prop :=
  a1 = "-h" ∨ a1 = "--help" ∨ a1 = "-v" ∨ a1 = "--version"

/-- Whether an option with code `code` is among the scanned items. -/
def has_opt (items : List getopt_item) (code : Int) : Bool :=
  items.any (fun it => it.opt = code)

/-! # Properties

## Option parsing: helper lemmas -/

set_option maxHeartbeats 1000000 in
theorem nk_parse_loop_done (items : List getopt_item) :
    ∀ (s s' : parse_state), nk_parse_loop items s = .done s' →
      s'.attach_set = (s.attach_set || has_opt items 97) ∧
      s'.detach_set = (s.detach_set || has_opt items 100) ∧
      s'.opts.attach = (s.opts.attach || has_opt items 97) ∧
      s'.opts.detach = (s.opts.detach || has_opt items 100) ∧
      s'.opts.rm = (s.opts.rm || has_opt items 1) ∧
      s'.opts.command = s.opts.command := by
  unfold has_opt
  induction items with
  | nil =>
    intro s s' h
    simp [nk_parse_loop] at h
    subst h
    simp
  | cons it rest ih =>
    intro s s' h
    unfold nk_parse_loop at h
    split_ifs at h
    all_goals have := ih _ _ h
    all_goals simp only [List.any_cons]
    all_goals simp_all

set_option maxHeartbeats 1000000 in
theorem nk_parse_loop_exit (items : List getopt_item) :
    ∀ (s : parse_state) (u : Bool), nk_parse_loop items s = .exit u →
      has_opt items 104 = true ∨ has_opt items 118 = true := by
  unfold has_opt
  induction items with
  | nil => intro s u h; simp [nk_parse_loop] at h
  | cons it rest ih =>
    intro s u h
    unfold nk_parse_loop at h
    simp only [List.any_cons, Bool.or_eq_true, decide_eq_true_eq]
    split_ifs at h
    all_goals first
      | exact (ih _ _ h).elim (fun hx => Or.inl (Or.inr hx)) (fun hx => Or.inr (Or.inr hx))
      | exact Or.inl (Or.inl ‹it.opt = 104›)
      | exact Or.inr (Or.inl ‹it.opt = 118›)

theorem nk_parse_args_verb (scan : List String → getopt_scan) (p a1 : String)
    (rest : List String) (hh : ¬ is_help_or_version a1) :
    nk_parse_args scan (p :: a1 :: rest) =
      match nk_parse_loop (scan (p :: a1 :: rest)).items (parse_state_init a1) with
      | .exit u => .exit 0 u
      | .fail o => .ret (-1) o
      | .done s => nk_parse_finish (scan (p :: a1 :: rest)).operands s := by
  unfold is_help_or_version at hh
  simp only [not_or] at hh
  simp [nk_parse_args, parse_state_init, hh.1, hh.2.1, hh.2.2.1, hh.2.2.2]

set_option maxHeartbeats 1000000 in
theorem nk_parse_finish_ok (ops : List String) (s : parse_state) (opts : nk_options_t)
    (h : nk_parse_finish ops s = .ret 0 opts) :
    opts.command = s.opts.command ∧ opts.container_id = ops.head? ∧
    opts.container_id.isSome = true ∧ opts.pid_file = s.opts.pid_file ∧
    (s.attach_set && s.detach_set) = false ∧
    ((opts.command = "start" ∧ s.opts.rm = false ∧ opts.rm = false ∧
        opts.attach = s.opts.attach ∧
        opts.detach = (s.opts.detach || (!s.attach_set && !s.detach_set))) ∨
     (opts.command = "run" ∧
        opts.attach = (s.opts.attach || (!s.attach_set && !s.detach_set)) ∧
        opts.detach = s.opts.detach ∧ opts.rm = s.opts.rm ∧ (opts.rm && opts.detach) = false) ∨
     ((opts.command = "create" ∨ opts.command = "delete" ∨ opts.command = "state") ∧
        opts.attach = false ∧ opts.detach = false ∧ opts.rm = false ∧
        s.attach_set = false ∧ s.detach_set = false ∧ s.opts.rm = false)) := by
  obtain ⟨⟨cmd, cid, bp, md, pf, att, det, rm⟩, as, ds⟩ := s
  simp only [nk_parse_finish, nk_parse_validate] at h
  by_cases h1 : cmd = "create"
  · subst h1
    cases as <;> cases ds <;> cases rm <;> cases hh : ops.head? <;> simp [hh] at h <;>
      subst h <;> simp [hh]
  by_cases h2 : cmd = "start"
  · subst h2
    cases as <;> cases ds <;> cases rm <;> cases hh : ops.head? <;> simp [hh] at h <;>
      subst h <;> simp [hh]
  by_cases h3 : cmd = "run"
  · subst h3
    cases as <;> cases ds <;> cases rm <;> cases det <;> cases hh : ops.head? <;>
      simp [hh] at h <;> subst h <;> simp [hh]
  by_cases h4 : cmd = "delete"
  · subst h4
    cases as <;> cases ds <;> cases rm <;> cases hh : ops.head? <;> simp [hh] at h <;>
      subst h <;> simp [hh]
  by_cases h5 : cmd = "state"
  · subst h5
    cases as <;> cases ds <;> cases rm <;> cases hh : ops.head? <;> simp [hh] at h <;>
      subst h <;> simp [hh]
  · cases as <;> cases ds <;> simp [h1, h2, h3, h4, h5] at h

/-- The post-loop part only ever returns, with code 0 or -1. -/
theorem nk_parse_finish_code (ops : List String) (s : parse_state) :
    ∃ code o, nk_parse_finish ops s = .ret code o ∧ (code = 0 ∨ code = -1) := by
  unfold nk_parse_finish
  simp only
  split_ifs <;> simp

set_option maxHeartbeats 1000000 in
/-- The post-loop part rejects each excluded flag combination. -/
theorem nk_parse_finish_reject (ops : List String) (s : parse_state)
    (h : (s.attach_set = true ∧ s.detach_set = true) ∨
         (s.opts.command = "start" ∧ s.opts.rm = true) ∨
         (s.opts.command = "run" ∧ s.opts.rm = true ∧ s.opts.detach = true) ∨
         ((s.opts.command = "create" ∨ s.opts.command = "delete" ∨ s.opts.command = "state") ∧
            (s.attach_set = true ∨ s.detach_set = true ∨ s.opts.rm = true))) :
    ∃ o, nk_parse_finish ops s = .ret (-1) o := by
  obtain ⟨code, o, hco, hc⟩ := nk_parse_finish_code ops s
  rcases hc with hc | hc
  · subst hc
    exfalso
    have hk := nk_parse_finish_ok ops s o hco
    obtain ⟨hcmd, -, -, -, hex, hcase⟩ := hk
    rw [hcmd] at hcase
    rcases h with ⟨ha, hd⟩ | ⟨hs, hr⟩ | ⟨hs, hr, hd⟩ | ⟨hs, hr⟩
    · simp [ha, hd] at hex
    · rcases hcase with hx | hx | hx
      · simp [hr] at hx
      · simp [hs] at hx
      · simp [hs] at hx
    · rcases hcase with hx | hx | hx
      · simp [hs] at hx
      · obtain ⟨-, -, h3, h4, h5⟩ := hx
        rw [h3, h4, hd, hr] at h5
        simp at h5
      · simp [hs] at hx
    · rcases hcase with hx | hx | hx
      · rcases hs with hs | hs | hs <;> simp [hs] at hx
      · rcases hs with hs | hs | hs <;> simp [hs] at hx
      · obtain ⟨-, -, -, -, h4, h5, h6⟩ := hx
        rcases hr with hr | hr | hr
        · simp [hr] at h4
        · simp [hr] at h5
        · simp [hr] at h6
  · subst hc
    exact ⟨o, hco⟩

/-- What a successful parse looks like: either one of the two pseudo-verbs, or
a verb with an id and the attach/detach/rm fields determined by the scanned
options. -/
theorem nk_parse_args_ok (scan : List String → getopt_scan) (argv : List String)
    (opts : nk_options_t) (h : nk_parse_args scan argv = .ret 0 opts) :
    ((opts.command = "help" ∨ opts.command = "version") ∧
        opts.attach = false ∧ opts.detach = false ∧ opts.rm = false) ∨
    (opts.container_id.isSome = true ∧
      (has_opt (scan argv).items 97 && has_opt (scan argv).items 100) = false ∧
      ((opts.command = "start" ∧ has_opt (scan argv).items 1 = false ∧ opts.rm = false ∧
          opts.attach = has_opt (scan argv).items 97 ∧
          opts.detach = (has_opt (scan argv).items 100 ||
            (!has_opt (scan argv).items 97 && !has_opt (scan argv).items 100))) ∨
       (opts.command = "run" ∧
          opts.attach = (has_opt (scan argv).items 97 ||
            (!has_opt (scan argv).items 97 && !has_opt (scan argv).items 100)) ∧
          opts.detach = has_opt (scan argv).items 100 ∧
          opts.rm = has_opt (scan argv).items 1 ∧ (opts.rm && opts.detach) = false) ∨
       ((opts.command = "create" ∨ opts.command = "delete" ∨ opts.command = "state") ∧
          opts.attach = false ∧ opts.detach = false ∧ opts.rm = false ∧
          has_opt (scan argv).items 97 = false ∧ has_opt (scan argv).items 100 = false ∧
          has_opt (scan argv).items 1 = false))) := by
  match argv, h with
  | [], h => simp [nk_parse_args] at h
  | [_], h => simp [nk_parse_args] at h
  | p :: a1 :: rest, h =>
    by_cases hh : is_help_or_version a1
    · left
      unfold is_help_or_version at hh
      unfold nk_parse_args at h
      simp only at h
      split_ifs at h with h1 h2
      · simp only [parse_result.ret.injEq, true_and] at h; subst h; simp [nk_options_init]
      · simp only [parse_result.ret.injEq, true_and] at h; subst h; simp [nk_options_init]
      · exfalso; rcases hh with hx | hx | hx | hx
        · exact h1 (Or.inl hx)
        · exact h1 (Or.inr hx)
        · exact h2 (Or.inl hx)
        · exact h2 (Or.inr hx)
    · right
      rw [nk_parse_args_verb scan p a1 rest hh] at h
      cases hl : nk_parse_loop (scan (p :: a1 :: rest)).items (parse_state_init a1) with
      | exit u => rw [hl] at h; simp at h
      | fail o => rw [hl] at h; simp at h
      | done s =>
        rw [hl] at h
        simp only at h
        have hd := nk_parse_loop_done _ _ _ hl
        have hf := nk_parse_finish_ok _ _ _ h
        simp only [parse_state_init, nk_options_init, Bool.false_or] at hd
        obtain ⟨d1, d2, d3, d4, d5, d6⟩ := hd
        obtain ⟨f1, f2, f3, f4, f5, f6⟩ := hf
        rw [d1, d2, d3, d4, d5] at f6
        rw [d1, d2] at f5
        exact ⟨f3, f5, f6⟩

/-- A parse returns 0 or -1 whenever it returns. -/
theorem nk_parse_args_code (scan : List String → getopt_scan) (argv : List String)
    (code : Int) (opts : nk_options_t) (h : nk_parse_args scan argv = .ret code opts) :
    code = 0 ∨ code = -1 := by
  match argv, h with
  | [], h => simp [nk_parse_args] at h; exact Or.inr h.1.symm
  | [_], h => simp [nk_parse_args] at h; exact Or.inr h.1.symm
  | p :: a1 :: rest, h =>
    by_cases hh : is_help_or_version a1
    · unfold nk_parse_args at h
      simp only at h
      split_ifs at h with h1 h2
      · simp at h; exact Or.inl h.1.symm
      · simp at h; exact Or.inl h.1.symm
      · exfalso; unfold is_help_or_version at hh; tauto
    · rw [nk_parse_args_verb scan p a1 rest hh] at h
      cases hl : nk_parse_loop (scan (p :: a1 :: rest)).items (parse_state_init a1) with
      | exit u => rw [hl] at h; simp at h
      | fail o => rw [hl] at h; simp at h; exact Or.inr h.1.symm
      | done s =>
        rw [hl] at h
        simp only at h
        obtain ⟨c, o, hco, hc⟩ := nk_parse_finish_code (scan (p :: a1 :: rest)).operands s
        rw [hco] at h
        simp at h
        rw [← h.1]; exact hc


/-- A verb line that carries an excluded flag combination, and no help or
version option, is rejected with -1. -/
theorem nk_parse_args_reject (scan : List String → getopt_scan) (p a1 : String)
    (rest : List String) (hh : ¬ is_help_or_version a1)
    (hnh : has_opt (scan (p :: a1 :: rest)).items 104 = false)
    (hnv : has_opt (scan (p :: a1 :: rest)).items 118 = false)
    (h : (has_opt (scan (p :: a1 :: rest)).items 97 = true ∧
            has_opt (scan (p :: a1 :: rest)).items 100 = true) ∨
         (a1 = "start" ∧ has_opt (scan (p :: a1 :: rest)).items 1 = true) ∨
         (a1 = "run" ∧ has_opt (scan (p :: a1 :: rest)).items 1 = true ∧
            has_opt (scan (p :: a1 :: rest)).items 100 = true) ∨
         ((a1 = "create" ∨ a1 = "delete" ∨ a1 = "state") ∧
            (has_opt (scan (p :: a1 :: rest)).items 97 = true ∨
             has_opt (scan (p :: a1 :: rest)).items 100 = true ∨
             has_opt (scan (p :: a1 :: rest)).items 1 = true))) :
    ∃ o, nk_parse_args scan (p :: a1 :: rest) = .ret (-1) o := by
  rw [nk_parse_args_verb scan p a1 rest hh]
  cases hl : nk_parse_loop (scan (p :: a1 :: rest)).items (parse_state_init a1) with
  | exit u =>
    exfalso
    rcases nk_parse_loop_exit _ _ _ hl with hx | hx
    · rw [hnh] at hx; exact Bool.false_ne_true hx
    · rw [hnv] at hx; exact Bool.false_ne_true hx
  | fail o => exact ⟨o, rfl⟩
  | done s =>
    have hd := nk_parse_loop_done _ _ _ hl
    simp only [parse_state_init, nk_options_init, Bool.false_or] at hd
    obtain ⟨d1, d2, d3, d4, d5, d6⟩ := hd
    apply nk_parse_finish_reject
    rw [d1, d2, d4, d5, d6]
    exact h

/-- When the parser returns -1, `main` prints the usage text and returns 1. -/
theorem main_parse_fail {σ : Type} (env : Env σ) (argv : List String) (w : World σ)
    (o : nk_options_t) (h : nk_parse_args env.getopt_long argv = .ret (-1) o) :
    main env argv w = (1, w.note .print_usage) := by
  simp [main, h]

/-- When the parser leaves through `exit`, nothing else runs. -/
theorem main_parse_exit {σ : Type} (env : Env σ) (argv : List String) (w : World σ)
    (st : Int) (u : Bool) (h : nk_parse_args env.getopt_long argv = .exit st u) :
    main env argv w = (st, w.note (if u then .print_usage else .print_version)) := by
  simp [main, h]

/-! ## Attach and detach together: helper lemmas -/

/-- With both an attach and a detach flag among the options `main` only prints
the usage text or the version, and without a help or version option the parse
fails and `main` returns 1. -/
theorem main_attach_detach_both {σ : Type} (env : Env σ) (argv : List String) (w : World σ)
    (ha : has_opt (env.getopt_long argv).items 97 = true)
    (hd : has_opt (env.getopt_long argv).items 100 = true) :
    (((main env argv w).1 = 1 ∧ (main env argv w).2 = w.note .print_usage) ∨
     ((main env argv w).1 = 0 ∧ ((main env argv w).2 = w.note .print_usage ∨
        (main env argv w).2 = w.note .print_version))) ∧
    (has_opt (env.getopt_long argv).items 104 = false →
     has_opt (env.getopt_long argv).items 118 = false →
     (∀ a1, argv.get? 1 = some a1 → ¬ is_help_or_version a1) →
       (∃ o, nk_parse_args env.getopt_long argv = .ret (-1) o) ∧ (main env argv w).1 = 1) := by
  match argv, ha, hd with
  | [], _, _ =>
    have hp : nk_parse_args env.getopt_long [] = .ret (-1) nk_options_init := rfl
    rw [main_parse_fail env _ w _ hp]
    exact ⟨Or.inl ⟨rfl, rfl⟩, fun _ _ _ => ⟨⟨_, hp⟩, rfl⟩⟩
  | [x], _, _ =>
    have hp : nk_parse_args env.getopt_long [x] = .ret (-1) nk_options_init := rfl
    rw [main_parse_fail env _ w _ hp]
    exact ⟨Or.inl ⟨rfl, rfl⟩, fun _ _ _ => ⟨⟨_, hp⟩, rfl⟩⟩
  | p :: a1 :: rest, ha, hd =>
    by_cases hh : is_help_or_version a1
    · refine ⟨Or.inr ?_, fun _ _ h3 => absurd hh (h3 a1 rfl)⟩
      unfold is_help_or_version at hh
      by_cases h1 : a1 = "-h" ∨ a1 = "--help"
      · have : main env (p :: a1 :: rest) w = (0, w.note .print_usage) := by
          simp [main, nk_parse_args, h1]
        rw [this]; exact ⟨rfl, Or.inl rfl⟩
      · have h2 : a1 = "-v" ∨ a1 = "--version" := by tauto
        have : main env (p :: a1 :: rest) w = (0, w.note .print_version) := by
          simp [main, nk_parse_args, h1, h2]
        rw [this]; exact ⟨rfl, Or.inr rfl⟩
    · constructor
      · cases hl : nk_parse_loop (env.getopt_long (p :: a1 :: rest)).items
            (parse_state_init a1) with
        | exit u =>
          have hp : nk_parse_args env.getopt_long (p :: a1 :: rest) = .exit 0 u := by
            rw [nk_parse_args_verb _ p a1 rest hh, hl]
          rw [main_parse_exit env _ w _ _ hp]
          cases u
          · exact Or.inr ⟨rfl, Or.inr rfl⟩
          · exact Or.inr ⟨rfl, Or.inl rfl⟩
        | fail o =>
          have hp : nk_parse_args env.getopt_long (p :: a1 :: rest) = .ret (-1) o := by
            rw [nk_parse_args_verb _ p a1 rest hh, hl]
          rw [main_parse_fail env _ w _ hp]
          exact Or.inl ⟨rfl, rfl⟩
        | done s =>
          have hd2 := nk_parse_loop_done _ _ _ hl
          simp only [parse_state_init, nk_options_init, Bool.false_or] at hd2
          obtain ⟨o, ho⟩ := nk_parse_finish_reject
            (env.getopt_long (p :: a1 :: rest)).operands s
            (Or.inl ⟨by rw [hd2.1]; exact ha, by rw [hd2.2.1]; exact hd⟩)
          have hp : nk_parse_args env.getopt_long (p :: a1 :: rest) = .ret (-1) o := by
            rw [nk_parse_args_verb _ p a1 rest hh, hl]; exact ho
          rw [main_parse_fail env _ w _ hp]
          exact Or.inl ⟨rfl, rfl⟩
      · intro hnh hnv _
        obtain ⟨o, ho⟩ := nk_parse_args_reject env.getopt_long p a1 rest hh hnh hnv
          (Or.inl ⟨ha, hd⟩)
        exact ⟨⟨o, ho⟩, by rw [main_parse_fail env _ w _ ho]⟩

/-- The option loop runs through accepted items: after them it continues from
some state with what is left. -/
theorem nk_parse_loop_accepted (pre : List getopt_item) :
    ∀ (s : parse_state), (∀ x ∈ pre, item_accepted x = true) →
      ∃ s', ∀ tail, nk_parse_loop (pre ++ tail) s = nk_parse_loop tail s' := by
  induction pre with
  | nil => intro s _; exact ⟨s, fun _ => rfl⟩
  | cons it rest ih =>
    intro s h
    have hit := h it (List.mem_cons_self _ _)
    have hrest : ∀ x ∈ rest, item_accepted x = true :=
      fun x hx => h x (List.mem_cons_of_mem _ hx)
    simp only [item_accepted, decide_eq_true_eq] at hit
    rcases hit with h1 | ⟨h1, h2⟩ | h1 | h1 | h1 | h1 | h1 | h1
    · obtain ⟨s', hs'⟩ := ih { s with opts := { s.opts with bundle_path := it.optarg.getD "" } }
        hrest
      exact ⟨s', fun tail => by rw [List.cons_append, nk_parse_loop]; simp [h1, hs' tail]⟩
    · rcases h2 with h2 | h2
      · obtain ⟨s', hs'⟩ := ih { s with opts := { s.opts with mode := NK_MODE_CONTAINER } } hrest
        exact ⟨s', fun tail => by rw [List.cons_append, nk_parse_loop]; simp [h1, h2, hs' tail]⟩
      · obtain ⟨s', hs'⟩ := ih { s with opts := { s.opts with mode := NK_MODE_VM } } hrest
        exact ⟨s', fun tail => by rw [List.cons_append, nk_parse_loop]; simp [h1, h2, hs' tail]⟩
    · obtain ⟨s', hs'⟩ := ih
        { s with opts := { s.opts with pid_file := some (it.optarg.getD "") } } hrest
      exact ⟨s', fun tail => by rw [List.cons_append, nk_parse_loop]; simp [h1, hs' tail]⟩
    · obtain ⟨s', hs'⟩ := ih
        { s with opts := { s.opts with attach := true }, attach_set := true } hrest
      exact ⟨s', fun tail => by rw [List.cons_append, nk_parse_loop]; simp [h1, hs' tail]⟩
    · obtain ⟨s', hs'⟩ := ih
        { s with opts := { s.opts with detach := true }, detach_set := true } hrest
      exact ⟨s', fun tail => by rw [List.cons_append, nk_parse_loop]; simp [h1, hs' tail]⟩
    · obtain ⟨s', hs'⟩ := ih { s with opts := { s.opts with rm := true } } hrest
      exact ⟨s', fun tail => by rw [List.cons_append, nk_parse_loop]; simp [h1, hs' tail]⟩
    · obtain ⟨s', hs'⟩ := ih s hrest
      exact ⟨s', fun tail => by rw [List.cons_append, nk_parse_loop]; simp [h1, hs' tail]⟩
    · obtain ⟨s', hs'⟩ := ih s hrest
      exact ⟨s', fun tail => by rw [List.cons_append, nk_parse_loop]; simp [h1, hs' tail]⟩

/-- A help or version option that the loop reaches after accepted items only
makes the parser leave through `exit(0)`, and `main` with it: the usage text
for `-h`, the version for `-v`. -/
theorem main_help_reached {σ : Type} (env : Env σ) (p a1 : String) (rest : List String)
    (w : World σ) (hh : ¬ is_help_or_version a1) (pre post : List getopt_item)
    (it : getopt_item)
    (hitems : (env.getopt_long (p :: a1 :: rest)).items = pre ++ it :: post)
    (hpre : ∀ x ∈ pre, item_accepted x = true) :
    (it.opt = 104 →
      nk_parse_args env.getopt_long (p :: a1 :: rest) = .exit 0 true ∧
      main env (p :: a1 :: rest) w = (0, w.note .print_usage)) ∧
    (it.opt = 118 →
      nk_parse_args env.getopt_long (p :: a1 :: rest) = .exit 0 false ∧
      main env (p :: a1 :: rest) w = (0, w.note .print_version)) := by
  obtain ⟨s', hs'⟩ := nk_parse_loop_accepted pre (parse_state_init a1) hpre
  constructor
  · intro h
    have hp : nk_parse_args env.getopt_long (p :: a1 :: rest) = .exit 0 true := by
      rw [nk_parse_args_verb _ p a1 rest hh, hitems, hs' (it :: post), nk_parse_loop]
      simp [h]
    exact ⟨hp, by rw [main_parse_exit env _ w _ _ hp]; rfl⟩
  · intro h
    have hp : nk_parse_args env.getopt_long (p :: a1 :: rest) = .exit 0 false := by
      rw [nk_parse_args_verb _ p a1 rest hh, hitems, hs' (it :: post), nk_parse_loop]
      simp [h]
    exact ⟨hp, by rw [main_parse_exit env _ w _ _ hp]; rfl⟩

/-- A help or version flag as `argv[1]` makes `main` print the usage text,
respectively the version, and return 0. -/
theorem main_help_first {σ : Type} (env : Env σ) (p a1 : String) (rest : List String)
    (w : World σ) :
    (a1 = "-h" ∨ a1 = "--help" → main env (p :: a1 :: rest) w = (0, w.note .print_usage)) ∧
    (a1 = "-v" ∨ a1 = "--version" →
      main env (p :: a1 :: rest) w = (0, w.note .print_version)) := by
  constructor
  · intro h1
    simp [main, nk_parse_args, h1]
  · intro h2
    have h1 : ¬ (a1 = "-h" ∨ a1 = "--help") := by
      rcases h2 with h2 | h2 <;> subst h2 <;> decide
    simp [main, nk_parse_args, h1, h2]

/-! ## C8 -/

/-- C8, as the code has it: when the scanned options contain both an attach and
a detach flag, `main` calls none of the lifecycle operations and leaves the
world untouched (it only prints the usage text or the version) and its exit
status is 1 or 0; when no help or version option is present (neither as
`argv[1]` nor among the options) `nk_parse_args` returns -1 and `main` exits
with status 1; and a help or version option that comes first, as `argv[1]` or
as the option the loop reaches after options it accepts, makes the process
print the usage text (for `-h`) or the version (for `-v`) and exit with
status 0. -/
theorem C8_attach_detach_rejected {σ : Type} (env : Env σ) (argv : List String) (w : World σ)
    (ha : has_opt (env.getopt_long argv).items 97 = true)
    (hd : has_opt (env.getopt_long argv).items 100 = true) :
    (((main env argv w).1 = 1 ∧ (main env argv w).2 = w.note .print_usage) ∨
     ((main env argv w).1 = 0 ∧ ((main env argv w).2 = w.note .print_usage ∨
        (main env argv w).2 = w.note .print_version))) ∧
    (has_opt (env.getopt_long argv).items 104 = false →
     has_opt (env.getopt_long argv).items 118 = false →
     (∀ a1, argv.get? 1 = some a1 → ¬ is_help_or_version a1) →
       (∃ o, nk_parse_args env.getopt_long argv = .ret (-1) o) ∧ (main env argv w).1 = 1) ∧
    (∀ a1, argv.get? 1 = some a1 →
      (a1 = "-h" ∨ a1 = "--help" → main env argv w = (0, w.note .print_usage)) ∧
      (a1 = "-v" ∨ a1 = "--version" → main env argv w = (0, w.note .print_version)) ∧
      (¬ is_help_or_version a1 → ∀ (pre post : List getopt_item) (it : getopt_item),
        (env.getopt_long argv).items = pre ++ it :: post →
        (∀ x ∈ pre, item_accepted x = true) →
        (it.opt = 104 →
          nk_parse_args env.getopt_long argv = .exit 0 true ∧
          main env argv w = (0, w.note .print_usage)) ∧
        (it.opt = 118 →
          nk_parse_args env.getopt_long argv = .exit 0 false ∧
          main env argv w = (0, w.note .print_version)))) := by
  refine ⟨(main_attach_detach_both env argv w ha hd).1,
    (main_attach_detach_both env argv w ha hd).2, ?_⟩
  intro a1 h1
  match argv, h1 with
  | [], h1 => simp at h1
  | [_], h1 => simp at h1
  | p :: a :: rest, h1 =>
    simp only [List.get?, Option.some.injEq] at h1
    subst h1
    exact ⟨(main_help_first env p a rest w).1, (main_help_first env p a rest w).2,
      fun hh pre post it hitems hpre => main_help_reached env p a rest w hh pre post it hitems hpre⟩

/-- Witness for C8: `prog start -a -d c6` is rejected with status 1, and
`prog start -a -d -h c6` prints the usage text and exits with status 0. -/
theorem C8_attach_detach_rejected_witness :
    (main (sim_env (some sim_spec) 4242 (0, 0) false true)
        ["prog", "start", "-a", "-d", "c6"] sim_empty).1 = 1 ∧
    main (sim_env (some sim_spec) 4242 (0, 0) false true)
        ["prog", "start", "-a", "-d", "-h", "c6"] sim_empty = (0, sim_empty.note .print_usage) :=
  ⟨((C8_attach_detach_rejected (sim_env (some sim_spec) 4242 (0, 0) false true)
      ["prog", "start", "-a", "-d", "c6"] sim_empty (by decide) (by decide)).2.1
    (by decide) (by decide)
    (fun a1 h => by
      simp only [List.get?, Option.some.injEq] at h
      subst h
      unfold is_help_or_version
      decide)).2,
   ((((C8_attach_detach_rejected (sim_env (some sim_spec) 4242 (0, 0) false true)
      ["prog", "start", "-a", "-d", "-h", "c6"] sim_empty (by decide) (by decide)).2.2
      "start" rfl).2.2 (by unfold is_help_or_version; decide)
      [{ opt := 97, optarg := none }, { opt := 100, optarg := none }] []
      { opt := 104, optarg := none } (by decide) (by decide)).1 (by decide)).2⟩

/-- C8 as stated fails: in `prog start -a -d -h c6` the options contain both
`-a` and `-d`, yet the parser reaches `-h`, prints the usage text and leaves
through `exit(0)`; it does not return -1 and the exit status is 0, not 1. -/
theorem C8_help_wins_counterexample :
    has_opt (getopt_long_gnu ["prog", "start", "-a", "-d", "-h", "c6"]).items 97 = true ∧
    has_opt (getopt_long_gnu ["prog", "start", "-a", "-d", "-h", "c6"]).items 100 = true ∧
    nk_parse_args getopt_long_gnu ["prog", "start", "-a", "-d", "-h", "c6"] = .exit 0 true ∧
    (main (sim_env (some sim_spec) 4242 (0, 0) false true)
        ["prog", "start", "-a", "-d", "-h", "c6"] sim_empty).1 = 0 := by
  decide

/-! ## C9 -/

/-- C9, as the code has it: on a command line without a help or version option,
`nk_parse_args` returns -1 when `--rm` comes with the verb `start`, when `--rm`
comes with `--detach` on `run`, and when any of `--attach`, `--detach`, `--rm`
comes with `create`, `delete` or `state`; and (on any command line) a parse that
succeeds with `rm` set has verb `run`, `attach` true and `detach` false. -/
theorem C9_rm_and_flag_exclusion (scan : List String → getopt_scan) (p a1 : String)
    (rest : List String)
    (hnh : has_opt (scan (p :: a1 :: rest)).items 104 = false)
    (hnv : has_opt (scan (p :: a1 :: rest)).items 118 = false) :
    (a1 = "start" → has_opt (scan (p :: a1 :: rest)).items 1 = true →
      ∃ o, nk_parse_args scan (p :: a1 :: rest) = .ret (-1) o) ∧
    (a1 = "run" → has_opt (scan (p :: a1 :: rest)).items 1 = true →
      has_opt (scan (p :: a1 :: rest)).items 100 = true →
      ∃ o, nk_parse_args scan (p :: a1 :: rest) = .ret (-1) o) ∧
    (a1 = "create" ∨ a1 = "delete" ∨ a1 = "state" →
      has_opt (scan (p :: a1 :: rest)).items 97 = true ∨
      has_opt (scan (p :: a1 :: rest)).items 100 = true ∨
      has_opt (scan (p :: a1 :: rest)).items 1 = true →
      ∃ o, nk_parse_args scan (p :: a1 :: rest) = .ret (-1) o) ∧
    (∀ opts, nk_parse_args scan (p :: a1 :: rest) = .ret 0 opts → opts.rm = true →
      opts.command = "run" ∧ opts.attach = true ∧ opts.detach = false) := by
  refine ⟨?_, ?_, ?_, ?_⟩
  · intro hs hr
    exact nk_parse_args_reject scan p a1 rest (by subst hs; unfold is_help_or_version; decide)
      hnh hnv (Or.inr (Or.inl ⟨hs, hr⟩))
  · intro hs hr hd
    exact nk_parse_args_reject scan p a1 rest (by subst hs; unfold is_help_or_version; decide)
      hnh hnv (Or.inr (Or.inr (Or.inl ⟨hs, hr, hd⟩)))
  · intro hs hf
    exact nk_parse_args_reject scan p a1 rest
      (by rcases hs with hs | hs | hs <;> subst hs <;> unfold is_help_or_version <;> decide)
      hnh hnv (Or.inr (Or.inr (Or.inr ⟨hs, hf⟩)))
  · intro opts h hrm
    rcases nk_parse_args_ok scan _ opts h with ⟨-, -, -, hx⟩ | ⟨-, hex, hc⟩
    · rw [hrm] at hx; exact absurd hx (by decide)
    · rcases hc with ⟨-, -, hx, -⟩ | ⟨hc, h1, h2, h3, h4⟩ | ⟨-, -, -, hx, -⟩
      · rw [hrm] at hx; exact absurd hx (by decide)
      · rw [hrm] at h4
        have hd : opts.detach = false := by simpa using h4
        refine ⟨hc, ?_, hd⟩
        rw [h1]
        rw [hd] at h2
        rw [← h2]
        cases has_opt (scan (p :: a1 :: rest)).items 97 <;> rfl
      · rw [hrm] at hx; exact absurd hx (by decide)

/-- Witness for C9: `prog start --rm c1` is rejected, and `prog run --rm c1`
parses to an attached run. -/
theorem C9_rm_and_flag_exclusion_witness :
    (∃ o, nk_parse_args getopt_long_gnu ["prog", "start", "--rm", "c1"] = .ret (-1) o) ∧
    nk_parse_args getopt_long_gnu ["prog", "run", "--rm", "c1"] = .ret 0 sim_run_rm_opts ∧
    (sim_run_rm_opts.command = "run" ∧ sim_run_rm_opts.attach = true ∧
      sim_run_rm_opts.detach = false) :=
  ⟨(C9_rm_and_flag_exclusion getopt_long_gnu "prog" "start" ["--rm", "c1"]
      (by decide) (by decide)).1 rfl (by decide),
   by decide,
   (C9_rm_and_flag_exclusion getopt_long_gnu "prog" "run" ["--rm", "c1"]
      (by decide) (by decide)).2.2.2 sim_run_rm_opts (by decide) rfl⟩

/-- C9 as stated fails: `prog start --rm -h c1` gives `--rm` with the verb
`start`, yet `nk_parse_args` does not return -1: it reaches `-h` and leaves
through `exit(0)`. The same happens for `prog create -a -h c1`. -/
theorem C9_help_wins_counterexample :
    has_opt (getopt_long_gnu ["prog", "start", "--rm", "-h", "c1"]).items 1 = true ∧
    nk_parse_args getopt_long_gnu ["prog", "start", "--rm", "-h", "c1"] = .exit 0 true ∧
    has_opt (getopt_long_gnu ["prog", "create", "-a", "-h", "c1"]).items 97 = true ∧
    nk_parse_args getopt_long_gnu ["prog", "create", "-a", "-h", "c1"] = .exit 0 true := by
  decide

/-! ## C10 -/

/-- C10: after a successful parse with verb `start` or `run`, exactly one of
`attach` and `detach` is true; when neither `-a` nor `-d` is among the options,
`start` gives `detach = true`, `attach = false` and `run` gives `attach = true`,
`detach = false`. -/
theorem C10_attach_detach_defaults (scan : List String → getopt_scan) (argv : List String)
    (opts : nk_options_t) (h : nk_parse_args scan argv = .ret 0 opts)
    (hv : opts.command = "start" ∨ opts.command = "run") :
    ((opts.attach = true ∧ opts.detach = false) ∨ (opts.attach = false ∧ opts.detach = true)) ∧
    (has_opt (scan argv).items 97 = false → has_opt (scan argv).items 100 = false →
      (opts.command = "start" → opts.detach = true ∧ opts.attach = false) ∧
      (opts.command = "run" → opts.attach = true ∧ opts.detach = false)) := by
  rcases nk_parse_args_ok scan argv opts h with ⟨hc, -⟩ | ⟨-, hex, hc⟩
  · exfalso
    rcases hc with hc | hc <;> rcases hv with hv | hv <;> rw [hc] at hv <;>
      exact absurd hv (by decide)
  · rcases hc with ⟨hc, -, -, h1, h2⟩ | ⟨hc, h1, h2, -, -⟩ | ⟨hc, -⟩
    · rw [h1, h2]
      refine ⟨?_, fun ha hd => ⟨fun _ => ?_, fun hr => ?_⟩⟩
      · revert hex
        cases has_opt (scan argv).items 97 <;> cases has_opt (scan argv).items 100 <;> simp
      · rw [ha, hd]; exact ⟨rfl, rfl⟩
      · rw [hc] at hr; exact absurd hr (by decide)
    · rw [h1, h2]
      refine ⟨?_, fun ha hd => ⟨fun hr => ?_, fun _ => ?_⟩⟩
      · revert hex
        cases has_opt (scan argv).items 97 <;> cases has_opt (scan argv).items 100 <;> simp
      · rw [hc] at hr; exact absurd hr (by decide)
      · rw [ha, hd]; exact ⟨rfl, rfl⟩
    · exfalso
      rcases hc with hc | hc | hc <;> rcases hv with hv | hv <;> rw [hc] at hv <;>
        exact absurd hv (by decide)

/-- Witness for C10: `prog start c1` parses to a detached start. -/
theorem C10_attach_detach_defaults_witness :
    nk_parse_args getopt_long_gnu ["prog", "start", "c1"] = .ret 0 sim_start_opts ∧
    sim_start_opts.detach = true ∧ sim_start_opts.attach = false :=
  ⟨by decide,
   ((C10_attach_detach_defaults getopt_long_gnu ["prog", "start", "c1"] sim_start_opts
      (by decide) (Or.inl rfl)).2 (by decide) (by decide)).1 rfl⟩

/-! ## State directory: helper lemmas -/

theorem fs_extends_refl {σ : Type} (w : World σ) : fs_extends w w :=
  ⟨[], by simp, by simp⟩

theorem fs_extends_trans {σ : Type} {w1 w2 w3 : World σ} (h12 : fs_extends w1 w2)
    (h23 : fs_extends w2 w3) : fs_extends w1 w3 := by
  obtain ⟨l, hl, hfs⟩ := h12
  obtain ⟨l', hl', hfs'⟩ := h23
  refine ⟨l ++ l', by rw [hl', hl, List.append_assoc], ?_⟩
  intro c hc
  rcases List.mem_append.mp hc with hc | hc
  · exact hfs c hc
  · exact hfs' c hc

theorem fs_extends_mkdir {σ : Type} (w : World σ) (path : String) (mode : Nat) (s : σ) :
    fs_extends w (w.step (.mkdir path mode) s) :=
  ⟨[.mkdir path mode], rfl, by simp [Call.is_fs]⟩

theorem fs_extends_stat {σ : Type} (w : World σ) (path : String) :
    fs_extends w (w.note (.stat path)) :=
  ⟨[.stat path], rfl, by simp [Call.is_fs]⟩

/-- The loop of `mkdir_p` only adds `mkdir` calls to the log. -/
theorem mkdir_p_loop_log {σ : Type} (env : Env σ) (mode : Nat) (rest : List Char) :
    ∀ (pre : List Char) (w : World σ), fs_extends w (mkdir_p_loop env mode pre rest w).2 := by
  induction rest with
  | nil => intro pre w; exact fs_extends_refl w
  | cons c cs ih =>
    intro pre w
    unfold mkdir_p_loop
    by_cases hc : c = '/'
    · simp only [hc, if_true]
      split_ifs
      · exact fs_extends_mkdir _ _ _ _
      · exact fs_extends_trans (fs_extends_mkdir _ _ _ _) (ih _ _)
    · simp only [hc, if_false]
      exact ih _ _

/-- The function `mkdir_p` only adds `mkdir` calls to the log. -/
theorem mkdir_p_log {σ : Type} (env : Env σ) (path : String) (mode : Nat) (w : World σ) :
    fs_extends w (mkdir_p env path mode w).2 := by
  unfold mkdir_p
  simp only
  split_ifs
  all_goals first
    | exact fs_extends_refl w
    | exact mkdir_p_loop_log env mode _ _ w
    | exact fs_extends_trans (mkdir_p_loop_log env mode _ _ w) (fs_extends_mkdir _ _ _ _)

/-- The function `ensure_state_dir` returns 0 or -1 and only adds `stat` and
`mkdir` calls to the log. -/
theorem ensure_state_dir_log {σ : Type} (env : Env σ) (w : World σ) :
    ((ensure_state_dir env w).1 = 0 ∨ (ensure_state_dir env w).1 = -1) ∧
    fs_extends w (ensure_state_dir env w).2 := by
  unfold ensure_state_dir
  simp only
  split_ifs
  · exact ⟨Or.inl rfl, fs_extends_stat _ _⟩
  · exact ⟨Or.inr rfl, fs_extends_stat _ _⟩
  · exact ⟨Or.inr rfl, fs_extends_trans (fs_extends_stat _ _) (mkdir_p_log _ _ _ _)⟩
  · exact ⟨Or.inl rfl, fs_extends_trans (fs_extends_stat _ _) (mkdir_p_log _ _ _ _)⟩

/-- When `stat` finds the state directory, `ensure_state_dir` changes nothing. -/
theorem ensure_state_dir_present {σ : Type} (env : Env σ) (w : World σ)
    (h : env.stat w.st (get_state_dir env w.st) = (0, true)) :
    ensure_state_dir env w = (0, w.note (.stat (get_state_dir env w.st))) := by
  simp [ensure_state_dir, h]

/-! ## C3 -/

/-- C3: when the id has no record, or the loaded record is not in state
`created` (it is running, stopped or paused), or its mode is `vm`,
`nk_container_start` returns -1 having made one call only, the load: neither
`nk_container_exec` nor `nk_state_save` is called and the world, hence the
persisted record, is unchanged. -/
theorem C3_start_requires_created_container {σ : Type} (env : Env σ) (container_id : String)
    (attach : Bool) (w : World σ)
    (h : env.nk_state_load w.st container_id = none ∨
         ∃ c, env.nk_state_load w.st container_id = some c ∧
           (c.state = NK_STATE_RUNNING ∨ c.state = NK_STATE_STOPPED ∨
            c.state = NK_STATE_PAUSED ∨ c.mode = NK_MODE_VM)) :
    (nk_container_start env container_id attach w).ret = -1 ∧
    (nk_container_start env container_id attach w).w.st = w.st ∧
    (nk_container_start env container_id attach w).w.log =
      w.log ++ [.nk_state_load container_id] ∧
    env.nk_state_load (nk_container_start env container_id attach w).w.st container_id =
      env.nk_state_load w.st container_id := by
  have key : nk_container_start env container_id attach w =
      { ret := -1, exit_code := none, w := w.note (.nk_state_load container_id) } := by
    unfold nk_container_start
    rcases h with h | ⟨c, h, hc⟩
    · simp [World.note, h]
    · simp only [World.note, h]
      rcases hc with hc | hc | hc | hc
      · simp [hc]
      · simp [hc]
      · simp [hc]
      · simp [hc]
  rw [key]
  simp [World.note]

/-- Witness for C3: starting a container whose record is `running` fails and
only loads the record. -/
theorem C3_start_requires_created_container_witness :
    (nk_container_start (sim_env (some sim_spec) 4242 (0, 0) false true) "c1" false
        (sim_with (sim_record NK_STATE_RUNNING NK_MODE_CONTAINER 4242))).ret = -1 :=
  (C3_start_requires_created_container (sim_env (some sim_spec) 4242 (0, 0) false true) "c1"
      false (sim_with (sim_record NK_STATE_RUNNING NK_MODE_CONTAINER 4242))
      (Or.inr ⟨sim_record NK_STATE_RUNNING NK_MODE_CONTAINER 4242, by decide, Or.inl rfl⟩)).1

/-! ## C4 -/

/-- How `nk_container_create` ends when the id already has a record. -/
theorem nk_container_create_existing {σ : Type} (env : Env σ) (opts : nk_options_t)
    (w : World σ)
    (hex : env.nk_state_exists (ensure_state_dir env w).2.st opts.id = true) :
    nk_container_create env opts w =
      if (ensure_state_dir env w).1 = -1 then (-1, (ensure_state_dir env w).2)
      else (-1, (ensure_state_dir env w).2.note (.nk_state_exists opts.id)) := by
  unfold nk_container_create
  simp only [World.note] at hex ⊢
  split_ifs <;> simp_all

/-- C4: when `nk_state_exists` reports a record for the id, `nk_container_create`
returns -1; besides the `stat` / `mkdir` calls of `ensure_state_dir` it makes the
`nk_state_exists` call and nothing else, so the bundle is not loaded and
`nk_state_save` is not called; the world is the one `ensure_state_dir` left, and
when the state directory was already there the world is unchanged. -/
theorem C4_create_existing_id {σ : Type} (env : Env σ) (opts : nk_options_t) (w : World σ)
    (hex : env.nk_state_exists (ensure_state_dir env w).2.st opts.id = true) :
    (nk_container_create env opts w).1 = -1 ∧
    (nk_container_create env opts w).2.st = (ensure_state_dir env w).2.st ∧
    (∃ l, (nk_container_create env opts w).2.log = w.log ++ l ∧
       ∀ c ∈ l, c.is_fs = true ∨ c = .nk_state_exists opts.id) ∧
    (env.stat w.st (get_state_dir env w.st) = (0, true) →
       (nk_container_create env opts w).2.st = w.st ∧
       (nk_container_create env opts w).2.log =
         w.log ++ [.stat (get_state_dir env w.st), .nk_state_exists opts.id]) := by
  rw [nk_container_create_existing env opts w hex]
  obtain ⟨-, l, hl, hfs⟩ := ensure_state_dir_log env w
  refine ⟨?_, ?_, ?_, ?_⟩
  · split_ifs <;> rfl
  · split_ifs <;> rfl
  · split_ifs
    · exact ⟨l, hl, fun c hc => Or.inl (hfs c hc)⟩
    · refine ⟨l ++ [.nk_state_exists opts.id], ?_, ?_⟩
      · simp only [World.note]; rw [hl]; simp
      · intro c hc
        rcases List.mem_append.mp hc with hc | hc
        · exact Or.inl (hfs c hc)
        · right; simpa using hc
  · intro hst
    rw [ensure_state_dir_present env w hst]
    simp [World.note]

/-- Witness for C4: `create` of `c1` when `c1` has a record. -/
theorem C4_create_existing_id_witness :
    (nk_container_create (sim_env (some sim_spec) 4242 (0, 0) false true) sim_create_opts
        (sim_with (sim_record NK_STATE_CREATED NK_MODE_CONTAINER 0))).1 = -1 :=
  (C4_create_existing_id (sim_env (some sim_spec) 4242 (0, 0) false true) sim_create_opts
      (sim_with (sim_record NK_STATE_CREATED NK_MODE_CONTAINER 0)) (by decide)).1

/-! ## Traces of `create` and `start` -/

/-- Every way `nk_container_create` can end, with the calls it made after
`ensure_state_dir` (whose result is `e`). -/
theorem nk_container_create_cases {σ : Type} (env : Env σ) (opts : nk_options_t) (w : World σ)
    (e : Int × World σ) (he : ensure_state_dir env w = e) :
    (e.1 = -1 ∧ nk_container_create env opts w = (-1, e.2)) ∨
    (e.1 ≠ -1 ∧ env.nk_state_exists e.2.st opts.id = true ∧
      nk_container_create env opts w = (-1, e.2.note (.nk_state_exists opts.id))) ∨
    (e.1 ≠ -1 ∧ env.nk_state_exists e.2.st opts.id = false ∧
      env.nk_oci_spec_load e.2.st opts.bundle_path = none ∧
      nk_container_create env opts w =
        (-1, { st := e.2.st, log := e.2.log ++
          [.nk_state_exists opts.id, .nk_oci_spec_load opts.bundle_path] })) ∨
    (∃ spec, e.1 ≠ -1 ∧ env.nk_state_exists e.2.st opts.id = false ∧
      env.nk_oci_spec_load e.2.st opts.bundle_path = some spec ∧
      env.nk_oci_spec_validate spec = false ∧
      nk_container_create env opts w =
        (-1, { st := e.2.st, log := e.2.log ++
          [.nk_state_exists opts.id, .nk_oci_spec_load opts.bundle_path,
           .nk_oci_spec_validate spec] })) ∨
    (∃ spec t1 t2, e.1 ≠ -1 ∧ env.nk_state_exists e.2.st opts.id = false ∧
      env.nk_oci_spec_load e.2.st opts.bundle_path = some spec ∧
      env.nk_oci_spec_validate spec = true ∧
      (env.nk_state_save e.2.st (created_record opts)).1 = -1 ∧
      nk_container_create env opts w =
        (-1, { st := (env.nk_state_save e.2.st (created_record opts)).2, log := e.2.log ++
          [.nk_state_exists opts.id, .nk_oci_spec_load opts.bundle_path,
           .nk_oci_spec_validate spec, .stdout t1, .stdout t2,
           .nk_state_save (created_record opts)] })) ∨
    (∃ spec t1 t2, e.1 ≠ -1 ∧ env.nk_state_exists e.2.st opts.id = false ∧
      env.nk_oci_spec_load e.2.st opts.bundle_path = some spec ∧
      env.nk_oci_spec_validate spec = true ∧
      (env.nk_state_save e.2.st (created_record opts)).1 ≠ -1 ∧
      nk_container_create env opts w =
        (0, { st := (env.nk_state_save e.2.st (created_record opts)).2, log := e.2.log ++
          [.nk_state_exists opts.id, .nk_oci_spec_load opts.bundle_path,
           .nk_oci_spec_validate spec, .stdout t1, .stdout t2,
           .nk_state_save (created_record opts), .stdout "  Status: created\n"] })) := by
  subst he
  unfold nk_container_create
  simp only [World.note, World.step]
  by_cases h1 : (ensure_state_dir env w).1 = -1
  · left; simp [h1]
  right
  by_cases h2 : env.nk_state_exists (ensure_state_dir env w).2.st opts.id = true
  · left; simp [h1, h2]
  right
  simp only [Bool.not_eq_true] at h2
  cases h3 : env.nk_oci_spec_load (ensure_state_dir env w).2.st opts.bundle_path with
  | none => left; simp [h1, h2]
  | some spec =>
    right
    by_cases h4 : env.nk_oci_spec_validate spec = true
    · right
      by_cases h5 : (env.nk_state_save (ensure_state_dir env w).2.st (created_record opts)).1 = -1
      · left; exact ⟨spec, _, _, h1, h2, rfl, h4, h5, by simp [h1, h2, h4, h5]; exact ⟨rfl, rfl⟩⟩
      · right; exact ⟨spec, _, _, h1, h2, rfl, h4, h5, by simp [h1, h2, h4, h5]; exact ⟨rfl, rfl⟩⟩
    · left
      simp only [Bool.not_eq_true] at h4
      exact ⟨spec, h1, h2, rfl, h4, by simp [h1, h2, h4]⟩

theorem mode_not_vm (m : nk_execution_mode_t) (h : ¬ m = NK_MODE_VM) : m = NK_MODE_CONTAINER := by
  cases m
  · rfl
  · exact absurd rfl h

/-- Every way `nk_container_start` can end, with the calls it made, in order. -/
theorem nk_container_start_cases {σ : Type} (env : Env σ) (id : String) (attach : Bool)
    (w : World σ) :
    ((env.nk_state_load w.st id = none ∨
        ∃ c, env.nk_state_load w.st id = some c ∧
          (c.state ≠ NK_STATE_CREATED ∨ c.mode = NK_MODE_VM)) ∧
      nk_container_start env id attach w =
        { ret := -1, exit_code := none, w := w.note (.nk_state_load id) }) ∨
    (∃ c, env.nk_state_load w.st id = some c ∧ c.state = NK_STATE_CREATED ∧
      c.mode = NK_MODE_CONTAINER ∧
      (env.nk_oci_spec_load w.st c.bundle_path = none ∨
        ∃ spec, env.nk_oci_spec_load w.st c.bundle_path = some spec ∧
          (spec.process = none ∨ spec.root = none)) ∧
      nk_container_start env id attach w =
        { ret := -1, exit_code := none,
          w := { st := w.st,
                 log := w.log ++ [.nk_state_load id, .nk_oci_spec_load c.bundle_path] } }) ∨
    (∃ c spec process root t1 pid s1,
      env.nk_state_load w.st id = some c ∧ c.state = NK_STATE_CREATED ∧
      c.mode = NK_MODE_CONTAINER ∧
      env.nk_oci_spec_load w.st c.bundle_path = some spec ∧
      spec.process = some process ∧ spec.root = some root ∧
      env.nk_container_exec w.st (build_ctx c spec process root) = (pid, s1) ∧
      ((pid = -1 ∧
        nk_container_start env id attach w =
          { ret := -1, exit_code := none,
            w := { st := s1,
                   log := w.log ++ [.nk_state_load id, .nk_oci_spec_load c.bundle_path,
                     .stdout t1, .nk_container_exec (build_ctx c spec process root) pid] } }) ∨
       (pid ≠ -1 ∧ ∃ rc s2 t2 t3, env.nk_state_save s1 (running_record c pid) = (rc, s2) ∧
        ((attach = false ∧
          nk_container_start env id attach w =
            { ret := 0, exit_code := some 0,
              w := { st := s2,
                     log := w.log ++ [.nk_state_load id, .nk_oci_spec_load c.bundle_path,
                       .stdout t1, .nk_container_exec (build_ctx c spec process root) pid,
                       .nk_state_save (running_record c pid), .stdout t2, .stdout t3] } }) ∨
         (attach = true ∧ ∃ rcw status s3, env.nk_container_wait s2 pid = (rcw, status, s3) ∧
          ((rcw = -1 ∧
            nk_container_start env id attach w =
              { ret := -1, exit_code := none,
                w := { st := s3,
                       log := w.log ++ [.nk_state_load id, .nk_oci_spec_load c.bundle_path,
                         .stdout t1, .nk_container_exec (build_ctx c spec process root) pid,
                         .nk_state_save (running_record c pid), .stdout t2, .stdout t3,
                         .nk_container_wait pid rcw status] } }) ∨
           (rcw ≠ -1 ∧ ∃ rc2 s4 t4, env.nk_state_save s3 (stopped_record c) = (rc2, s4) ∧
            nk_container_start env id attach w =
              { ret := 0, exit_code := some (wait_exit_code status),
                w := { st := s4,
                       log := w.log ++ [.nk_state_load id, .nk_oci_spec_load c.bundle_path,
                         .stdout t1, .nk_container_exec (build_ctx c spec process root) pid,
                         .nk_state_save (running_record c pid), .stdout t2, .stdout t3,
                         .nk_container_wait pid rcw status,
                         .nk_state_save (stopped_record c), .stdout t4] } }))))))) := by
  rcases h1 : env.nk_state_load w.st id with _ | c
  · left; exact ⟨Or.inl rfl, by simp [nk_container_start, World.note, h1]⟩
  by_cases h2 : c.state = NK_STATE_CREATED
  swap
  · left
    exact ⟨Or.inr ⟨c, rfl, Or.inl h2⟩, by simp [nk_container_start, World.note, h1, h2]⟩
  by_cases h3 : c.mode = NK_MODE_VM
  · left
    exact ⟨Or.inr ⟨c, rfl, Or.inr h3⟩, by simp [nk_container_start, World.note, h1, h2, h3]⟩
  right
  have h3' := mode_not_vm _ h3
  rcases h4 : env.nk_oci_spec_load w.st c.bundle_path with _ | spec
  · left
    exact ⟨c, rfl, h2, h3', Or.inl h4, by simp [nk_container_start, World.note, h1, h2, h3, h4]⟩
  rcases h5 : spec.process with _ | process
  · left
    exact ⟨c, rfl, h2, h3', Or.inr ⟨spec, h4, Or.inl h5⟩,
      by simp [nk_container_start, World.note, h1, h2, h3, h4, h5]⟩
  rcases h6 : spec.root with _ | root
  · left
    exact ⟨c, rfl, h2, h3', Or.inr ⟨spec, h4, Or.inr h6⟩,
      by simp [nk_container_start, World.note, h1, h2, h3, h4, h5, h6]⟩
  right
  rcases hex : env.nk_container_exec w.st (build_ctx c spec process root) with ⟨pid, s1⟩
  refine ⟨c, spec, process, root,
    "  Executing: " ++ (build_ctx c spec process root).args.headD "(null)" ++ "\n",
    pid, s1, rfl, h2, h3', h4, h5, h6, hex, ?_⟩
  by_cases h7 : pid = -1
  · left
    exact ⟨h7, by simp [nk_container_start, World.note, World.step, h1, h2, h3, h4, h5, h6,
      hex, h7]⟩
  right
  rcases hsv : env.nk_state_save s1 (running_record c pid) with ⟨rc, s2⟩
  have hsv' := hsv
  simp only [running_record] at hsv'
  cases attach with
  | false =>
    refine ⟨h7, rc, s2, "  Status: running (PID: " ++ toString pid ++ ")\n",
      "  Mode: detached (like docker start)\n", rfl, Or.inl ⟨rfl, ?_⟩⟩
    simp [nk_container_start, World.note, World.step, h1, h2, h3, h4, h5, h6, hex, h7, hsv',
      running_record]
  | true =>
    refine ⟨h7, rc, s2, "  Status: running (PID: " ++ toString pid ++ ")\n",
      "  Mode: attached (waiting for container process)\n", rfl, Or.inr ⟨rfl, ?_⟩⟩
    rcases hwt : env.nk_container_wait s2 pid with ⟨rcw, status, s3⟩
    refine ⟨rcw, status, s3, rfl, ?_⟩
    by_cases h8 : rcw = -1
    · left
      exact ⟨h8, by simp [nk_container_start, World.note, World.step, h1, h2, h3, h4, h5, h6,
        hex, h7, hsv', hwt, h8, running_record]⟩
    · right
      rcases hsv2 : env.nk_state_save s3 (stopped_record c) with ⟨rc2, s4⟩
      have hsv2' := hsv2
      simp only [stopped_record] at hsv2'
      refine ⟨h8, rc2, s4,
        "  Status: stopped (exit code: " ++ toString (wait_exit_code status) ++ ")\n", rfl, ?_⟩
      simp [nk_container_start, World.note, World.step, h1, h2, h3, h4, h5, h6, hex, h7, hsv',
        hwt, h8, hsv2', running_record, stopped_record]

/-! ## C5 -/

/-- C5: given an executor that keeps its contract (it returns -1 or a positive
pid), every record that
`nk_container_create` or `nk_container_start` hands to `nk_state_save` satisfies
`state = running ↔ init_pid > 0`. A record saved by `create` is the created
record with `init_pid = 0`; a record saved by `start` is either running with
the pid the executor just returned (the save directly follows that call), or,
in attached mode, stopped with `init_pid = 0`, saved directly after the wait. -/
theorem C5_saved_records_pid_consistent {σ : Type} (env : Env σ)
    (hexec : executor_contract env)
    (opts : nk_options_t) (id : String) (attach : Bool) (w : World σ) :
    (∃ l, (nk_container_create env opts w).2.log = w.log ++ l ∧
      ∀ r, Call.nk_state_save r ∈ l →
        r.state = NK_STATE_CREATED ∧ r.init_pid = 0 ∧
        (r.state = NK_STATE_RUNNING ↔ 0 < r.init_pid)) ∧
    (∃ l, (nk_container_start env id attach w).w.log = w.log ++ l ∧
      ∀ r, Call.nk_state_save r ∈ l →
        (r.state = NK_STATE_RUNNING ↔ 0 < r.init_pid) ∧
        ((r.state = NK_STATE_RUNNING ∧
            ∃ ctx l1 l2, l = l1 ++ [.nk_container_exec ctx r.init_pid, .nk_state_save r] ++ l2) ∨
         (r.state = NK_STATE_STOPPED ∧ r.init_pid = 0 ∧ attach = true ∧
            ∃ pid rc status l1 l2,
              l = l1 ++ [.nk_container_wait pid rc status, .nk_state_save r] ++ l2))) := by
  constructor
  · obtain ⟨-, le, hle, hfs⟩ := ensure_state_dir_log env w
    have hns : ∀ r, Call.nk_state_save r ∉ le := fun r hr => by
      have := hfs _ hr
      simp [Call.is_fs] at this
    rcases nk_container_create_cases env opts w _ rfl with
      ⟨-, h⟩ | ⟨-, -, h⟩ | ⟨-, -, -, h⟩ | ⟨spec, -, -, -, -, h⟩ |
      ⟨spec, t1, t2, -, -, -, -, -, h⟩ | ⟨spec, t1, t2, -, -, -, -, -, h⟩
    all_goals rw [h]
    all_goals simp only [World.note, hle, List.append_assoc]
    all_goals refine ⟨_, rfl, ?_⟩
    all_goals intro r hr
    all_goals simp only [List.mem_append, List.mem_cons, List.mem_singleton, List.not_mem_nil,
      or_false, hns r, false_or, reduceCtorEq, Call.nk_state_save.injEq] at hr
    all_goals subst hr
    all_goals simp [created_record]
  · rcases nk_container_start_cases env id attach w with
      ⟨-, h⟩ | ⟨c, -, -, -, -, h⟩ |
      ⟨c, spec, process, root, t1, pid, s1, -, -, -, -, -, -, hex, h⟩
    · rw [h]
      exact ⟨_, rfl, fun r hr => by simp at hr⟩
    · rw [h]
      exact ⟨_, rfl, fun r hr => by simp at hr⟩
    · have hpid : pid ≠ -1 → 0 < pid := fun hne => by
        have := hexec w.st (build_ctx c spec process root)
        rw [hex] at this
        exact this.resolve_left hne
      rcases h with ⟨-, h⟩ | ⟨hne, rc, s2, t2, t3, -, h⟩
      · rw [h]
        exact ⟨_, rfl, fun r hr => by simp at hr⟩
      · have hrun : ∀ tl : List Call,
            ((running_record c pid).state = NK_STATE_RUNNING ↔ 0 < (running_record c pid).init_pid) ∧
            ((running_record c pid).state = NK_STATE_RUNNING ∧
              ∃ ctx l1 l2, [Call.nk_state_load id, .nk_oci_spec_load c.bundle_path, .stdout t1,
                  .nk_container_exec (build_ctx c spec process root) pid,
                  .nk_state_save (running_record c pid)] ++ tl =
                l1 ++ [.nk_container_exec ctx (running_record c pid).init_pid,
                  .nk_state_save (running_record c pid)] ++ l2) := fun tl =>
          ⟨by simp [running_record, hpid hne], rfl,
            build_ctx c spec process root,
            [.nk_state_load id, .nk_oci_spec_load c.bundle_path, .stdout t1], tl, rfl⟩
        rcases h with ⟨-, h⟩ | ⟨hatt, rcw, status, s3, -, h⟩
        · rw [h]
          refine ⟨_, rfl, fun r hr => ?_⟩
          simp only [List.mem_cons, List.mem_singleton, List.not_mem_nil, or_false,
            reduceCtorEq, false_or, Call.nk_state_save.injEq] at hr
          subst hr
          exact ⟨(hrun []).1, Or.inl (hrun [.stdout t2, .stdout t3]).2⟩
        · rcases h with ⟨-, h⟩ | ⟨-, rc2, s4, t4, -, h⟩
          · rw [h]
            refine ⟨_, rfl, fun r hr => ?_⟩
            simp only [List.mem_cons, List.mem_singleton, List.not_mem_nil, or_false,
              reduceCtorEq, false_or, Call.nk_state_save.injEq] at hr
            subst hr
            exact ⟨(hrun []).1, Or.inl (hrun [.stdout t2, .stdout t3, .nk_container_wait pid rcw status]).2⟩
          · rw [h]
            refine ⟨_, rfl, fun r hr => ?_⟩
            simp only [List.mem_cons, List.mem_singleton, List.not_mem_nil, or_false,
              reduceCtorEq, false_or, Call.nk_state_save.injEq] at hr
            rcases hr with hr | hr
            · subst hr
              exact ⟨(hrun []).1, Or.inl (hrun [.stdout t2, .stdout t3, .nk_container_wait pid rcw status,
                .nk_state_save (stopped_record c), .stdout t4]).2⟩
            · subst hr
              refine ⟨by simp [stopped_record], Or.inr ⟨rfl, rfl, hatt, pid, rcw, status,
                [.nk_state_load id, .nk_oci_spec_load c.bundle_path, .stdout t1,
                  .nk_container_exec (build_ctx c spec process root) pid,
                  .nk_state_save (running_record c pid), .stdout t2, .stdout t3],
                [.stdout t4], rfl⟩⟩

/-- Witness for C5: an attached start of `c1` in the simulation, whose executor
returns pid 4242. -/
theorem C5_saved_records_pid_consistent_witness :
    ∃ l, (nk_container_start (sim_env (some sim_spec) 4242 (0, 1792) false true) "c1" true
            (sim_with (sim_record NK_STATE_CREATED NK_MODE_CONTAINER 0))).w.log =
          (sim_with (sim_record NK_STATE_CREATED NK_MODE_CONTAINER 0)).log ++ l ∧
      ∀ r, Call.nk_state_save r ∈ l → (r.state = NK_STATE_RUNNING ↔ 0 < r.init_pid) :=
  let ⟨l, hl, h⟩ := (C5_saved_records_pid_consistent
    (sim_env (some sim_spec) 4242 (0, 1792) false true) (fun _ _ => Or.inr (show (0 : Int) < 4242 by decide))
    sim_create_opts "c1" true (sim_with (sim_record NK_STATE_CREATED NK_MODE_CONTAINER 0))).2
  ⟨l, hl, fun r hr => (h r hr).1⟩

/-! ## `main`, verb by verb -/

theorem main_create {σ : Type} (env : Env σ) (argv : List String) (w : World σ)
    (o : nk_options_t) (hp : nk_parse_args env.getopt_long argv = .ret 0 o)
    (hc : o.command = "create") : main env argv w = nk_container_create env o w := by
  simp [main, hp, hc]

theorem main_start {σ : Type} (env : Env σ) (argv : List String) (w : World σ)
    (o : nk_options_t) (hp : nk_parse_args env.getopt_long argv = .ret 0 o)
    (hc : o.command = "start") :
    main env argv w =
      if ((if (nk_container_start env o.id o.attach w).ret = 0 ∧ o.pid_file.isSome ∧
              o.detach = true then
            write_container_pid_file env o.pid_file o.id (nk_container_start env o.id o.attach w).w
          else ((nk_container_start env o.id o.attach w).ret,
                (nk_container_start env o.id o.attach w).w)).1 = 0 ∧ o.attach = true) then
        ((nk_container_start env o.id o.attach w).exit_code.getD 0,
          (if (nk_container_start env o.id o.attach w).ret = 0 ∧ o.pid_file.isSome ∧
              o.detach = true then
            write_container_pid_file env o.pid_file o.id (nk_container_start env o.id o.attach w).w
          else ((nk_container_start env o.id o.attach w).ret,
                (nk_container_start env o.id o.attach w).w)).2)
      else
        (if (nk_container_start env o.id o.attach w).ret = 0 ∧ o.pid_file.isSome ∧
              o.detach = true then
            write_container_pid_file env o.pid_file o.id (nk_container_start env o.id o.attach w).w
          else ((nk_container_start env o.id o.attach w).ret,
                (nk_container_start env o.id o.attach w).w)) := by
  simp [main, hp, hc]

theorem main_run {σ : Type} (env : Env σ) (argv : List String) (w : World σ)
    (o : nk_options_t) (hp : nk_parse_args env.getopt_long argv = .ret 0 o)
    (hc : o.command = "run") :
    main env argv w =
      if (nk_container_run env o w).1 = 0 ∧ o.pid_file.isSome ∧ o.detach = true then
        write_container_pid_file env o.pid_file o.id (nk_container_run env o w).2
      else nk_container_run env o w := by
  simp [main, hp, hc]

theorem main_delete {σ : Type} (env : Env σ) (argv : List String) (w : World σ)
    (o : nk_options_t) (hp : nk_parse_args env.getopt_long argv = .ret 0 o)
    (hc : o.command = "delete") : main env argv w = nk_container_delete env o.id w := by
  simp [main, hp, hc]

theorem main_state {σ : Type} (env : Env σ) (argv : List String) (w : World σ)
    (o : nk_options_t) (hp : nk_parse_args env.getopt_long argv = .ret 0 o)
    (hc : o.command = "state") :
    main env argv w =
      (0, (nk_container_state env o.id w).2.note
        (.stdout (state_str (nk_container_state env o.id w).1 ++ "\n"))) := by
  simp [main, hp, hc]

/-! ## C2 -/

/-- The simulated store round-trips records. -/
theorem sim_env_round_trips (spec : Option nk_oci_spec_t) (pid : Int) (wt : Int × Int)
    (wipe save_ok : Bool) : store_round_trips (sim_env spec pid wt wipe save_ok) := by
  intro s s' c h
  simp only [sim_env] at h
  split_ifs at h with hd
  · simp only [Prod.mk.injEq, true_and] at h
    subst h
    refine ⟨c, ?_, rfl, rfl, rfl, rfl, rfl⟩
    simp [sim_env, hd.1]
  · simp at h

/-- C2, as the code has it: for an id with no record and a bundle whose spec
loads and validates, when moreover `ensure_state_dir` succeeds and
`nk_state_save` returns 0, and the store round-trips records,
`nk_container_create` returns 0; the one record it saves is the created record
(state `created`, `init_pid` 0, the requested mode); it never calls the
executor; the record can be loaded back with these fields; and a following
`state` invocation for that id prints `created` and exits 0. -/
theorem C2_create_then_state {σ : Type} (env : Env σ) (opts : nk_options_t) (w : World σ)
    (spec : nk_oci_spec_t) (argv2 : List String) (o2 : nk_options_t)
    (hdir : (ensure_state_dir env w).1 = 0)
    (hnew : env.nk_state_exists (ensure_state_dir env w).2.st opts.id = false)
    (hload : env.nk_oci_spec_load (ensure_state_dir env w).2.st opts.bundle_path = some spec)
    (hval : env.nk_oci_spec_validate spec = true)
    (hsave : (env.nk_state_save (ensure_state_dir env w).2.st (created_record opts)).1 = 0)
    (hrt : store_round_trips env)
    (hp : nk_parse_args env.getopt_long argv2 = .ret 0 o2) (hc : o2.command = "state")
    (hi : o2.id = opts.id) :
    (nk_container_create env opts w).1 = 0 ∧
    ((created_record opts).id = opts.id ∧ (created_record opts).state = NK_STATE_CREATED ∧
      (created_record opts).init_pid = 0 ∧ (created_record opts).mode = opts.mode) ∧
    (∃ l, (nk_container_create env opts w).2.log = w.log ++ l ∧
      Call.nk_state_save (created_record opts) ∈ l ∧
      (∀ r, Call.nk_state_save r ∈ l → r = created_record opts) ∧
      ∀ ctx pid, Call.nk_container_exec ctx pid ∉ l) ∧
    (∃ c, env.nk_state_load (nk_container_create env opts w).2.st opts.id = some c ∧
      c.state = NK_STATE_CREATED ∧ c.init_pid = 0 ∧ c.mode = opts.mode) ∧
    main env argv2 (nk_container_create env opts w).2 =
      (0, { st := (nk_container_create env opts w).2.st,
            log := (nk_container_create env opts w).2.log ++
              [.nk_state_load opts.id, .stdout "created\n"] }) := by
  obtain ⟨-, le, hle, hfs⟩ := ensure_state_dir_log env w
  have hns : ∀ r, Call.nk_state_save r ∉ le := fun r hr => by
    have := hfs _ hr
    simp [Call.is_fs] at this
  have hne : ∀ ctx pid, Call.nk_container_exec ctx pid ∉ le := fun ctx pid hr => by
    have := hfs _ hr
    simp [Call.is_fs] at this
  have hcr : ∃ t1 t2, nk_container_create env opts w =
      (0, { st := (env.nk_state_save (ensure_state_dir env w).2.st (created_record opts)).2,
            log := (ensure_state_dir env w).2.log ++
              [.nk_state_exists opts.id, .nk_oci_spec_load opts.bundle_path,
               .nk_oci_spec_validate spec, .stdout t1, .stdout t2,
               .nk_state_save (created_record opts), .stdout "  Status: created\n"] }) := by
    rcases nk_container_create_cases env opts w _ rfl with
      ⟨h, -⟩ | ⟨-, h, -⟩ | ⟨-, -, h, -⟩ | ⟨sp, -, -, h1, h2, -⟩ |
      ⟨sp, t1, t2, -, -, -, -, h, -⟩ | ⟨sp, t1, t2, -, -, h1, -, -, h⟩
    · rw [hdir] at h; exact absurd h (by decide)
    · rw [hnew] at h; exact absurd h (by decide)
    · rw [hload] at h; exact absurd h (by simp)
    · rw [hload] at h1
      cases h1
      rw [hval] at h2; exact absurd h2 (by decide)
    · rw [hsave] at h; exact absurd h (by decide)
    · rw [hload] at h1
      cases h1
      exact ⟨t1, t2, h⟩
  obtain ⟨t1, t2, hcr⟩ := hcr
  obtain ⟨c, hc1, -, -, hc3, hc4, hc5⟩ := hrt (ensure_state_dir env w).2.st
    (env.nk_state_save (ensure_state_dir env w).2.st (created_record opts)).2
    (created_record opts) (Prod.ext hsave rfl)
  have hc1' : env.nk_state_load
      (env.nk_state_save (ensure_state_dir env w).2.st (created_record opts)).2 opts.id =
      some c := hc1
  have hst : c.state = NK_STATE_CREATED := hc3
  refine ⟨by rw [hcr], ⟨rfl, rfl, rfl, rfl⟩, ?_, ?_, ?_⟩
  · rw [hcr, hle]
    refine ⟨le ++ _, (List.append_assoc _ _ _), ?_, ?_, ?_⟩
    · simp
    · intro r hr
      simpa [hns r] using hr
    · intro ctx pid hr
      simp [hne ctx pid] at hr
  · rw [hcr]
    exact ⟨c, hc1', hst, hc5, hc4⟩
  · rw [main_state env argv2 _ o2 hp hc, hi, hcr]
    simp [nk_container_state, World.note, hc1', hst, state_str, nk_container_state_t.toInt]

/-- Witness for C2: `create` of `c1` in the empty simulated store, followed by
`prog state c1`. -/
theorem C2_create_then_state_witness :
    (nk_container_create (sim_env (some sim_spec) 4242 (0, 0) false true) sim_create_opts
        sim_empty).1 = 0 :=
  (C2_create_then_state (sim_env (some sim_spec) 4242 (0, 0) false true) sim_create_opts
      sim_empty sim_spec ["prog", "state", "c1"]
      { nk_options_init with command := "state", container_id := some "c1" }
      (by decide) (by decide) (by decide) (by decide) (by decide)
      (sim_env_round_trips _ _ _ _ _) (by decide) rfl rfl).1

/-- C2 as stated fails: the id has no record, the bundle loads and validates and
the store round-trips, yet `nk_container_create` returns -1, (1) when the state
directory path exists but is not a directory, so that `ensure_state_dir` fails,
and (2) when `nk_state_save` fails. -/
theorem C2_create_can_fail_counterexample :
    (store_round_trips (sim_env (some sim_spec) 4242 (0, 0) false true) ∧
     (sim_env (some sim_spec) 4242 (0, 0) false true).nk_state_exists sim_not_a_dir.st "c1"
        = false ∧
     (sim_env (some sim_spec) 4242 (0, 0) false true).nk_oci_spec_load sim_not_a_dir.st
        "./bundle" = some sim_spec ∧
     (sim_env (some sim_spec) 4242 (0, 0) false true).nk_oci_spec_validate sim_spec = true ∧
     (nk_container_create (sim_env (some sim_spec) 4242 (0, 0) false true) sim_create_opts
        sim_not_a_dir).1 = -1) ∧
    (store_round_trips (sim_env (some sim_spec) 4242 (0, 0) false false) ∧
     (sim_env (some sim_spec) 4242 (0, 0) false false).nk_state_exists sim_empty.st "c1"
        = false ∧
     (sim_env (some sim_spec) 4242 (0, 0) false false).nk_oci_spec_load sim_empty.st
        "./bundle" = some sim_spec ∧
     (sim_env (some sim_spec) 4242 (0, 0) false false).nk_oci_spec_validate sim_spec = true ∧
     (nk_container_create (sim_env (some sim_spec) 4242 (0, 0) false false) sim_create_opts
        sim_empty).1 = -1) :=
  ⟨⟨sim_env_round_trips _ _ _ _ _, by decide, by decide, by decide, by decide⟩,
   ⟨sim_env_round_trips _ _ _ _ _, by decide, by decide, by decide, by decide⟩⟩

/-! ## C6 -/

/-- C6, what the code does: for an id with no record the `state` verb makes
`main` load the record, print `unknown` on stdout and return 0; the -1 that
`nk_container_state` returns is not turned into a failure status. -/
theorem C6_state_missing_record_exits_zero {σ : Type} (env : Env σ) (argv : List String)
    (w : World σ) (o : nk_options_t)
    (hp : nk_parse_args env.getopt_long argv = .ret 0 o) (hc : o.command = "state")
    (hmiss : env.nk_state_load w.st o.id = none) :
    (nk_container_state env o.id w).1 = -1 ∧
    main env argv w =
      (0, { st := w.st, log := w.log ++ [.nk_state_load o.id, .stdout "unknown\n"] }) := by
  rw [main_state env argv w o hp hc]
  simp [nk_container_state, World.note, hmiss, state_str, nk_container_state_t.toInt]

/-- Witness for C6: `prog state c4` on an empty store exits with status 0. -/
theorem C6_state_missing_record_exits_zero_witness :
    (main (sim_env (some sim_spec) 4242 (0, 0) false true) ["prog", "state", "c4"]
        sim_empty).1 = 0 :=
  congrArg Prod.fst (C6_state_missing_record_exits_zero
    (sim_env (some sim_spec) 4242 (0, 0) false true) ["prog", "state", "c4"] sim_empty
    { nk_options_init with command := "state", container_id := some "c4" }
    (by decide) rfl (by decide)).2

/-! ## Attached start and run: helper lemmas -/

/-- A successful parse with `attach` set is a `start` or a `run` with an id and
with `detach` clear. -/
theorem nk_parse_args_attach (scan : List String → getopt_scan) (argv : List String)
    (o : nk_options_t) (hp : nk_parse_args scan argv = .ret 0 o) (ha : o.attach = true) :
    o.detach = false ∧ o.container_id.isSome = true := by
  rcases nk_parse_args_ok scan argv o hp with ⟨-, hx, -⟩ | ⟨hid, hex, hc⟩
  · rw [ha] at hx; exact absurd hx (by decide)
  · refine ⟨?_, hid⟩
    rcases hc with ⟨-, -, -, h1, h2⟩ | ⟨-, h1, h2, -, -⟩ | ⟨-, hx, -⟩
    · rw [ha] at h1
      rw [← h1] at hex h2
      rw [h2]
      revert hex
      cases has_opt (scan argv).items 100 <;> simp
    · rw [ha] at h1
      rw [h2]
      revert hex h1
      cases has_opt (scan argv).items 97 <;> cases has_opt (scan argv).items 100 <;> simp
    · rw [ha] at hx; exact absurd hx (by decide)

theorem wait_exit_code_exited (st : Int) (h : WIFEXITED st = true) :
    wait_exit_code st = WEXITSTATUS st := by
  simp [wait_exit_code, h]

theorem wait_exit_code_signaled (st : Int) (h : WIFSIGNALED st = true) :
    wait_exit_code st = 128 + WTERMSIG st := by
  have hne : WIFEXITED st = false := by
    simp only [WIFSIGNALED, WIFEXITED, WTERMSIG, decide_eq_true_eq, decide_eq_false_iff_not] at h ⊢
    split_ifs at h <;> omega
  simp [wait_exit_code, h, hne]

theorem wait_status_of_exit (n : Int) (h0 : 0 ≤ n) (h1 : n ≤ 255) :
    WIFEXITED (n * 256) = true ∧ WEXITSTATUS (n * 256) = n := by
  simp only [WIFEXITED, WTERMSIG, WEXITSTATUS, decide_eq_true_eq]
  constructor <;> omega

theorem wait_status_of_signal (s core : Int) (h0 : 1 ≤ s) (h1 : s ≤ 126)
    (hc : core = 0 ∨ core = 128) :
    WIFSIGNALED (s + core) = true ∧ WTERMSIG (s + core) = s := by
  simp only [WIFSIGNALED, WTERMSIG, decide_eq_true_eq]
  rcases hc with hc | hc <;> subst hc <;> constructor <;> (try split_ifs) <;> omega

/-- An attached start that returns 0 has waited successfully, and the exit code
it stores is the translation of the status that wait returned. -/
theorem nk_container_start_attached_ok {σ : Type} (env : Env σ) (id : String) (w : World σ)
    (h : (nk_container_start env id true w).ret = 0) :
    ∃ pid rc status l1 l2,
      (nk_container_start env id true w).w.log =
        w.log ++ l1 ++ [.nk_container_wait pid rc status] ++ l2 ∧
      rc ≠ -1 ∧
      (nk_container_start env id true w).exit_code = some (wait_exit_code status) := by
  rcases nk_container_start_cases env id true w with
    ⟨-, h'⟩ | ⟨c, -, -, -, -, h'⟩ |
    ⟨c, spec, process, root, t1, pid, s1, -, -, -, -, -, -, -, h'⟩
  · rw [h'] at h; simp at h
  · rw [h'] at h; simp at h
  · rcases h' with ⟨-, h'⟩ | ⟨-, rc, s2, t2, t3, -, h'⟩
    · rw [h'] at h; simp at h
    · rcases h' with ⟨hf, -⟩ | ⟨-, rcw, status, s3, -, h'⟩
      · exact absurd hf (by decide)
      · rcases h' with ⟨-, h'⟩ | ⟨hrc, rc2, s4, t4, -, h'⟩
        · rw [h'] at h; simp at h
        · rw [h']
          exact ⟨pid, rcw, status,
            [.nk_state_load id, .nk_oci_spec_load c.bundle_path, .stdout t1,
              .nk_container_exec (build_ctx c spec process root) pid,
              .nk_state_save (running_record c pid), .stdout t2, .stdout t3],
            [.nk_state_save (stopped_record c), .stdout t4], by simp, hrc, rfl⟩

/-- What `nk_container_run` returns once create and start have succeeded. -/
theorem nk_container_run_started {σ : Type} (env : Env σ) (o : nk_options_t) (w : World σ)
    (hid : o.container_id.isSome = true)
    (hc : (nk_container_create env o w).1 ≠ -1)
    (hs : (nk_container_start env o.id o.attach (nk_container_create env o w).2).ret = 0) :
    nk_container_run env o w =
      if o.rm = true then
        if (nk_container_delete env o.id
              (nk_container_start env o.id o.attach (nk_container_create env o w).2).w).1 = -1
        then (-1, (nk_container_delete env o.id
              (nk_container_start env o.id o.attach (nk_container_create env o w).2).w).2)
        else (if o.attach = true then
                (nk_container_start env o.id o.attach
                  (nk_container_create env o w).2).exit_code.getD 0
              else 0,
              (nk_container_delete env o.id
                (nk_container_start env o.id o.attach (nk_container_create env o w).2).w).2)
      else (if o.attach = true then
              (nk_container_start env o.id o.attach
                (nk_container_create env o w).2).exit_code.getD 0
            else 0,
            (nk_container_start env o.id o.attach (nk_container_create env o w).2).w) := by
  have hid' : o.container_id.isNone = false := by
    cases hcid : o.container_id
    · rw [hcid] at hid; simp at hid
    · rfl
  unfold nk_container_run
  simp only [hid', hc, hs]
  simp

/-! ## C1 -/

/-- C1, as the code has it. The exit code reported by an attached
`nk_container_start` that returns 0 is computed from the status of its
successful wait: `WEXITSTATUS` when `WIFEXITED` (so `n` for the status `n * 256`
of `exit(n)`, `0 ≤ n ≤ 255`), and `128 + WTERMSIG` when `WIFSIGNALED` (so
`128 + s` for a kill by signal `s`, with or without the core flag 128). For
`start --attach`, `main` returns that code. For an attached `run`, `main`
returns that code when `--rm` is not given or the automatic delete succeeds;
when `--rm` is given and `nk_container_delete` returns -1, `main` returns -1. -/
theorem C1_exit_code_mapping {σ : Type} (env : Env σ) (argv : List String) (w : World σ)
    (o : nk_options_t) (hp : nk_parse_args env.getopt_long argv = .ret 0 o)
    (ha : o.attach = true) :
    (∀ st, WIFEXITED st = true → wait_exit_code st = WEXITSTATUS st) ∧
    (∀ st, WIFSIGNALED st = true → wait_exit_code st = 128 + WTERMSIG st) ∧
    (∀ n : Int, 0 ≤ n → n ≤ 255 →
      WIFEXITED (n * 256) = true ∧ WEXITSTATUS (n * 256) = n ∧ wait_exit_code (n * 256) = n) ∧
    (∀ s core : Int, 1 ≤ s → s ≤ 126 → core = 0 ∨ core = 128 →
      WIFSIGNALED (s + core) = true ∧ WTERMSIG (s + core) = s ∧
      wait_exit_code (s + core) = 128 + s) ∧
    (o.command = "start" → (nk_container_start env o.id true w).ret = 0 →
      ∃ pid rc status l1 l2,
        (nk_container_start env o.id true w).w.log =
          w.log ++ l1 ++ [.nk_container_wait pid rc status] ++ l2 ∧
        rc ≠ -1 ∧
        (nk_container_start env o.id true w).exit_code = some (wait_exit_code status) ∧
        (main env argv w).1 = wait_exit_code status) ∧
    (o.command = "run" → (nk_container_create env o w).1 ≠ -1 →
      (nk_container_start env o.id true (nk_container_create env o w).2).ret = 0 →
      ∃ pid rc status l1 l2,
        (nk_container_start env o.id true (nk_container_create env o w).2).w.log =
          (nk_container_create env o w).2.log ++ l1 ++ [.nk_container_wait pid rc status] ++ l2 ∧
        rc ≠ -1 ∧
        (nk_container_start env o.id true (nk_container_create env o w).2).exit_code =
          some (wait_exit_code status) ∧
        (o.rm = false → (main env argv w).1 = wait_exit_code status) ∧
        (o.rm = true →
          (nk_container_delete env o.id
            (nk_container_start env o.id true (nk_container_create env o w).2).w).1 ≠ -1 →
          (main env argv w).1 = wait_exit_code status) ∧
        (o.rm = true →
          (nk_container_delete env o.id
            (nk_container_start env o.id true (nk_container_create env o w).2).w).1 = -1 →
          (main env argv w).1 = -1)) := by
  obtain ⟨hdet, hid⟩ := nk_parse_args_attach _ _ _ hp ha
  refine ⟨wait_exit_code_exited, wait_exit_code_signaled, ?_, ?_, ?_, ?_⟩
  · intro n h0 h1
    obtain ⟨h2, h3⟩ := wait_status_of_exit n h0 h1
    exact ⟨h2, h3, by rw [wait_exit_code_exited _ h2, h3]⟩
  · intro s core h0 h1 hc
    obtain ⟨h2, h3⟩ := wait_status_of_signal s core h0 h1 hc
    exact ⟨h2, h3, by rw [wait_exit_code_signaled _ h2, h3]⟩
  · intro hc hs
    obtain ⟨pid, rc, status, l1, l2, hlog, hrc, hcode⟩ :=
      nk_container_start_attached_ok env o.id w hs
    refine ⟨pid, rc, status, l1, l2, hlog, hrc, hcode, ?_⟩
    rw [main_start env argv w o hp hc, ha]
    simp [hs, hdet, hcode]
  · intro hc hcr hs
    obtain ⟨pid, rc, status, l1, l2, hlog, hrc, hcode⟩ :=
      nk_container_start_attached_ok env o.id _ hs
    have hrun := nk_container_run_started env o w hid hcr (by rw [ha]; exact hs)
    rw [ha] at hrun
    simp only [hcode, Option.getD_some, if_true] at hrun
    have hmain : main env argv w = nk_container_run env o w := by
      rw [main_run env argv w o hp hc]
      simp [hdet]
    refine ⟨pid, rc, status, l1, l2, hlog, hrc, hcode, ?_, ?_, ?_⟩
    · intro hrm
      rw [hmain, hrun]; simp [hrm]
    · intro hrm hd
      rw [hmain, hrun]; simp [hrm, hd]
    · intro hrm hd
      rw [hmain, hrun]; simp [hrm, hd]

/-- Witness for C1: `prog start -a c1` on a created container whose init exits
with status `7 * 256`. -/
theorem C1_exit_code_mapping_witness :
    ∃ status,
      (nk_container_start (sim_env (some sim_spec) 4242 (0, 1792) false true) "c1" true
        (sim_with (sim_record NK_STATE_CREATED NK_MODE_CONTAINER 0))).exit_code =
        some (wait_exit_code status) ∧
      (main (sim_env (some sim_spec) 4242 (0, 1792) false true) ["prog", "start", "-a", "c1"]
        (sim_with (sim_record NK_STATE_CREATED NK_MODE_CONTAINER 0))).1 =
        wait_exit_code status :=
  let ⟨_, _, status, _, _, _, _, h1, h2⟩ :=
    (C1_exit_code_mapping (sim_env (some sim_spec) 4242 (0, 1792) false true)
      ["prog", "start", "-a", "c1"]
      (sim_with (sim_record NK_STATE_CREATED NK_MODE_CONTAINER 0))
      { nk_options_init with command := "start", container_id := some "c1", attach := true }
      (by decide) rfl).2.2.2.2.1 rfl (by decide)
  ⟨status, h1, h2⟩

/-- C1 as stated fails for an attached `run --rm`: in `prog run --rm -b ./bundle
c2` the init exits with code 7 (wait status `7 * 256`) and attached
`nk_container_start` succeeds and reports 7, but the state directory is removed
while the wait blocks, the automatic delete finds no record, and `main` returns
-1 instead of 7. -/
theorem C1_run_rm_counterexample :
    nk_parse_args getopt_long_gnu ["prog", "run", "--rm", "-b", "./bundle", "c2"] =
      .ret 0 { nk_options_init with command := "run", container_id := some "c2",
                                    bundle_path := "./bundle", attach := true, rm := true } ∧
    WIFEXITED 1792 = true ∧ WEXITSTATUS 1792 = 7 ∧
    (nk_container_start (sim_env (some sim_spec) 4242 (0, 1792) true true) "c2" true
      (nk_container_create (sim_env (some sim_spec) 4242 (0, 1792) true true)
        { nk_options_init with command := "run", container_id := some "c2",
                               bundle_path := "./bundle", attach := true, rm := true }
        sim_empty).2).ret = 0 ∧
    (nk_container_start (sim_env (some sim_spec) 4242 (0, 1792) true true) "c2" true
      (nk_container_create (sim_env (some sim_spec) 4242 (0, 1792) true true)
        { nk_options_init with command := "run", container_id := some "c2",
                               bundle_path := "./bundle", attach := true, rm := true }
        sim_empty).2).exit_code = some 7 ∧
    (main (sim_env (some sim_spec) 4242 (0, 1792) true true)
      ["prog", "run", "--rm", "-b", "./bundle", "c2"] sim_empty).1 = -1 := by
  decide


/-! ## C7 -/

/-- Deleting an id that has no record returns -1. -/
theorem nk_container_delete_missing {σ : Type} (env : Env σ) (id : String) (w : World σ)
    (h : env.nk_state_load w.st id = none) : (nk_container_delete env id w).1 = -1 := by
  simp [nk_container_delete, World.note, h]

/-- When create or start fails, `nk_container_run` returns -1. -/
theorem nk_container_run_fails {σ : Type} (env : Env σ) (o : nk_options_t) (w : World σ)
    (h : (nk_container_create env o w).1 = -1 ∨
         (nk_container_start env o.id o.attach (nk_container_create env o w).2).ret = -1) :
    (nk_container_run env o w).1 = -1 := by
  unfold nk_container_run
  by_cases hid : o.container_id.isNone = true
  · simp [hid]
  by_cases hc : (nk_container_create env o w).1 = -1
  · simp [hid, hc]
  have hs := h.resolve_left hc
  simp only [hid, hc, hs]
  simp only [Bool.false_eq_true, if_false, if_true]
  split_ifs <;> rfl

/-- C7, as the code has it: when the create, start, run or delete operation
fails, `main` returns that operation's result, -1, not 1. This covers create on
an existing id, start on a record that is not in state `created`, delete on a
missing id, a bundle whose spec does not load or does not validate (for create)
or does not load or lacks its process or root section (for start), an executor
failure, and a run whose create or start fails. -/
theorem C7_runtime_failure_status {σ : Type} (env : Env σ) (argv : List String) (w : World σ)
    (o : nk_options_t) (hp : nk_parse_args env.getopt_long argv = .ret 0 o) :
    (o.command = "create" → (nk_container_create env o w).1 = -1 → (main env argv w).1 = -1) ∧
    (o.command = "start" → (nk_container_start env o.id o.attach w).ret = -1 →
      (main env argv w).1 = -1) ∧
    (o.command = "run" → (nk_container_run env o w).1 = -1 → (main env argv w).1 = -1) ∧
    (o.command = "delete" → (nk_container_delete env o.id w).1 = -1 →
      (main env argv w).1 = -1) ∧
    (env.nk_state_exists (ensure_state_dir env w).2.st o.id = true →
      (nk_container_create env o w).1 = -1) ∧
    ((∃ c, env.nk_state_load w.st o.id = some c ∧ c.state ≠ NK_STATE_CREATED) →
      (nk_container_start env o.id o.attach w).ret = -1) ∧
    (env.nk_state_load w.st o.id = none → (nk_container_delete env o.id w).1 = -1) ∧
    ((env.nk_oci_spec_load (ensure_state_dir env w).2.st o.bundle_path = none ∨
       ∃ spec, env.nk_oci_spec_load (ensure_state_dir env w).2.st o.bundle_path = some spec ∧
         env.nk_oci_spec_validate spec = false) →
      (nk_container_create env o w).1 = -1) ∧
    (∀ c spec process root, env.nk_state_load w.st o.id = some c →
      env.nk_oci_spec_load w.st c.bundle_path = some spec →
      spec.process = some process → spec.root = some root →
      (env.nk_container_exec w.st (build_ctx c spec process root)).1 = -1 →
      (nk_container_start env o.id o.attach w).ret = -1) ∧
    ((nk_container_create env o w).1 = -1 ∨
       (nk_container_start env o.id o.attach (nk_container_create env o w).2).ret = -1 →
      (nk_container_run env o w).1 = -1) ∧
    (∀ c, env.nk_state_load w.st o.id = some c →
      (env.nk_oci_spec_load w.st c.bundle_path = none ∨
        ∃ spec, env.nk_oci_spec_load w.st c.bundle_path = some spec ∧
          (spec.process = none ∨ spec.root = none)) →
      (nk_container_start env o.id o.attach w).ret = -1) := by
  refine ⟨?_, ?_, ?_, ?_, ?_, ?_, ?_, ?_, ?_, ?_, ?_⟩
  · intro hc h
    rw [main_create env argv w o hp hc]; exact h
  · intro hc h
    rw [main_start env argv w o hp hc]
    simp [h]
  · intro hc h
    rw [main_run env argv w o hp hc]
    simp [h]
  · intro hc h
    rw [main_delete env argv w o hp hc]; exact h
  · intro h
    rw [nk_container_create_existing env o w h]
    split_ifs <;> rfl
  · rintro ⟨c, h1, h2⟩
    simp [nk_container_start, World.note, h1, h2]
  · exact nk_container_delete_missing env o.id w
  · intro h
    rcases nk_container_create_cases env o w _ rfl with
      ⟨-, h'⟩ | ⟨-, -, h'⟩ | ⟨-, -, -, h'⟩ | ⟨sp, -, -, -, -, h'⟩ |
      ⟨sp, t1, t2, -, -, -, -, -, h'⟩ | ⟨sp, t1, t2, -, -, h1, h2, -, h'⟩
    · rw [h']
    · rw [h']
    · rw [h']
    · rw [h']
    · rw [h']
    · exfalso
      rcases h with h | ⟨spec, h3, h4⟩
      · rw [h] at h1; simp at h1
      · rw [h3] at h1
        cases h1
        rw [h4] at h2; simp at h2
  · intro c spec process root h1 h2 h3 h4 h5
    rcases nk_container_start_cases env o.id o.attach w with
      ⟨-, h'⟩ | ⟨c', -, -, -, -, h'⟩ |
      ⟨c', spec', process', root', t1, pid, s1, g1, -, -, g2, g3, g4, hex, h'⟩
    · rw [h']
    · rw [h']
    · rw [h1] at g1
      cases g1
      rw [h2] at g2
      cases g2
      rw [h3] at g3
      cases g3
      rw [h4] at g4
      cases g4
      rw [hex] at h5
      rcases h' with ⟨-, h'⟩ | ⟨hne, -⟩
      · rw [h']
      · exact absurd h5 hne
  · exact nk_container_run_fails env o w
  · intro c h1 h2
    rcases nk_container_start_cases env o.id o.attach w with
      ⟨-, h'⟩ | ⟨c', -, -, -, -, h'⟩ |
      ⟨c', spec', process', root', t1, pid, s1, g1, -, -, g2, g3, g4, -, -⟩
    · rw [h']
    · rw [h']
    · exfalso
      rw [h1] at g1
      cases g1
      rcases h2 with h2 | ⟨spec, h2, h3⟩
      · rw [h2] at g2; simp at g2
      · rw [h2] at g2
        cases g2
        rcases h3 with h3 | h3
        · rw [h3] at g3; simp at g3
        · rw [h3] at g4; simp at g4

/-- Witness for C7: `prog create -b ./bundle c1` when `c1` already has a record. -/
theorem C7_runtime_failure_status_witness :
    (main (sim_env (some sim_spec) 4242 (0, 0) false true)
        ["prog", "create", "-b", "./bundle", "c1"]
        (sim_with (sim_record NK_STATE_CREATED NK_MODE_CONTAINER 0))).1 = -1 :=
  (C7_runtime_failure_status (sim_env (some sim_spec) 4242 (0, 0) false true)
      ["prog", "create", "-b", "./bundle", "c1"]
      (sim_with (sim_record NK_STATE_CREATED NK_MODE_CONTAINER 0)) sim_create_opts
      (by decide)).1 rfl (by decide)

/-- C7 as stated fails: `prog create -b ./bundle c1` on an id that already has a
record fails inside the runtime, and `main` returns -1, not 1; so does
`prog delete c9` for an id without a record. -/
theorem C7_status_is_minus_one_counterexample :
    (sim_env (some sim_spec) 4242 (0, 0) false true).nk_state_exists
      (sim_with (sim_record NK_STATE_CREATED NK_MODE_CONTAINER 0)).st "c1" = true ∧
    (main (sim_env (some sim_spec) 4242 (0, 0) false true)
        ["prog", "create", "-b", "./bundle", "c1"]
        (sim_with (sim_record NK_STATE_CREATED NK_MODE_CONTAINER 0))).1 = -1 ∧
    (main (sim_env (some sim_spec) 4242 (0, 0) false true)
        ["prog", "create", "-b", "./bundle", "c1"]
        (sim_with (sim_record NK_STATE_CREATED NK_MODE_CONTAINER 0))).1 ≠ 1 ∧
    (main (sim_env (some sim_spec) 4242 (0, 0) false true) ["prog", "delete", "c9"]
        sim_empty).1 = -1 := by
  decide

/-! ## C13 -/

theorem utf8ByteSize_append (a b : String) :
    (a ++ b).utf8ByteSize = a.utf8ByteSize + b.utf8ByteSize := by
  cases a; cases b
  simp [String.append, String.utf8ByteSize]

/-- The test `dir && dir[0] != 0` of the code and "set (non-empty)" of the
specification agree. -/
theorem getenv_nonempty_eq {σ : Type} (env : Env σ) (s : σ) (name : String) :
    getenv_nonempty env s name =
      if env_is_set (env.getenv s name) then some ((env.getenv s name).getD "") else none := by
  unfold getenv_nonempty env_is_set
  cases h : env.getenv s name with
  | none => simp
  | some v =>
    by_cases hv : v = ""
    · subst hv; simp [Option.filter]
    · simp [Option.filter, hv]

/-- C13: `get_state_dir` computes the state directory of the specification from
the three environment variables and the effective uid of the current call:
`NS_RUN_DIR` when set (non-empty), otherwise `NK_RUN_DIR` when set, otherwise
`/run/nano-sandbox` when euid = 0, otherwise `$HOME/.local/share/nano-sandbox/run`
when `HOME` is set and that path is shorter than `PATH_MAX` bytes, otherwise
`run`; and two calls that see the same four inputs return the same result,
whatever else differs. -/
theorem C13_get_state_dir_resolution {σ : Type} (env : Env σ) (s : σ) :
    get_state_dir env s =
      state_dir_spec (env.getenv s "NS_RUN_DIR") (env.getenv s "NK_RUN_DIR")
        (env.getenv s "HOME") (env.geteuid s) ∧
    (∀ (τ : Type) (env2 : Env τ) (s2 : τ),
      env2.getenv s2 "NS_RUN_DIR" = env.getenv s "NS_RUN_DIR" →
      env2.getenv s2 "NK_RUN_DIR" = env.getenv s "NK_RUN_DIR" →
      env2.getenv s2 "HOME" = env.getenv s "HOME" →
      env2.geteuid s2 = env.geteuid s →
      get_state_dir env2 s2 = get_state_dir env s) := by
  have key : ∀ (τ : Type) (e : Env τ) (t : τ), get_state_dir e t =
      state_dir_spec (e.getenv t "NS_RUN_DIR") (e.getenv t "NK_RUN_DIR")
        (e.getenv t "HOME") (e.geteuid t) := by
    intro τ e t
    unfold get_state_dir state_dir_spec
    rw [getenv_nonempty_eq, getenv_nonempty_eq, getenv_nonempty_eq]
    by_cases h1 : env_is_set (e.getenv t "NS_RUN_DIR") = true
    · simp [h1]
    by_cases h2 : env_is_set (e.getenv t "NK_RUN_DIR") = true
    · simp [h1, h2]
    by_cases h3 : e.geteuid t = 0
    · simp [h1, h2, h3, NS_STATE_DIR_ROOT]
    by_cases h4 : env_is_set (e.getenv t "HOME") = true
    · simp only [h1, h2, h3, h4, Bool.false_eq_true, if_false, if_true, true_and]
      have hb : ((e.getenv t "HOME").getD "" ++ "/.local/share/nano-sandbox/run").utf8ByteSize =
          ((e.getenv t "HOME").getD "").utf8ByteSize +
            NS_STATE_DIR_USER_SUFFIX.utf8ByteSize := utf8ByteSize_append _ _
      have hs : NS_STATE_DIR_USER_SUFFIX.utf8ByteSize = 30 := by decide
      rw [hb, hs]
      by_cases h5 : ((e.getenv t "HOME").getD "").utf8ByteSize + 30 < PATH_MAX
      · simp [h5, NS_STATE_DIR_USER_SUFFIX]
      · simp [h5]
    · simp [h1, h2, h3, h4]
  refine ⟨key σ env s, ?_⟩
  intro τ env2 s2 e1 e2 e3 e4
  rw [key τ env2 s2, key σ env s, e1, e2, e3, e4]

/-! ## C12 -/

/-- Every way `nk_container_delete` can end once the record is loaded, with the
calls of the stop phase (`mid`), in order. -/
theorem nk_container_delete_loaded {σ : Type} (env : Env σ) (id : String) (w : World σ)
    (c : nk_container_t) (hload : env.nk_state_load w.st id = some c) :
    ∃ (mid : List Call) (s : σ),
      nk_container_delete env id w =
        (0, { st := (env.nk_state_delete (env.nk_cgroup_cleanup s id) id).2,
              log := w.log ++
                [.stdout ("Deleting container '" ++ id ++ "'\n"), .nk_state_load id] ++ mid ++
                [.nk_cgroup_cleanup id, .nk_state_delete id, .stdout "  Status: deleted\n"] }) ∧
      ((¬ (c.state = NK_STATE_RUNNING ∧ c.init_pid > 0) ∧ mid = [] ∧ s = w.st) ∨
       (c.state = NK_STATE_RUNNING ∧ c.init_pid > 0 ∧
        ∃ rc s1, env.nk_container_signal w.st c.init_pid SIGTERM = (rc, s1) ∧
          ((rc ≠ 0 ∧ s = s1 ∧
              mid = [.stdout ("  Stopping container (PID: " ++ toString c.init_pid ++ ")\n"), .nk_container_signal c.init_pid SIGTERM]) ∨
           (rc = 0 ∧ ∃ k s3, env.kill (env.usleep s1 100000) c.init_pid 0 = (k, s3) ∧
              ((k ≠ 0 ∧ s = s3 ∧
                  mid = [.stdout ("  Stopping container (PID: " ++ toString c.init_pid ++ ")\n"), .nk_container_signal c.init_pid SIGTERM, .usleep 100000,
                    .kill c.init_pid 0]) ∨
               (k = 0 ∧ s = (env.nk_container_signal s3 c.init_pid SIGKILL).2 ∧
                  mid = [.stdout ("  Stopping container (PID: " ++ toString c.init_pid ++ ")\n"), .nk_container_signal c.init_pid SIGTERM, .usleep 100000,
                    .kill c.init_pid 0, .stdout "  Force killing...\n",
                    .nk_container_signal c.init_pid SIGKILL])))))) := by
  by_cases hrun : c.state = NK_STATE_RUNNING ∧ c.init_pid > 0
  swap
  · refine ⟨[], w.st, ?_, Or.inl ⟨hrun, rfl, rfl⟩⟩
    simp [nk_container_delete, World.note, World.step, hload, hrun]
  rcases hsig : env.nk_container_signal w.st c.init_pid SIGTERM with ⟨rc, s1⟩
  by_cases hrc : rc = 0
  swap
  · refine ⟨[.stdout ("  Stopping container (PID: " ++ toString c.init_pid ++ ")\n"),
        .nk_container_signal c.init_pid SIGTERM], s1, ?_,
      Or.inr ⟨hrun.1, hrun.2, rc, s1, rfl, Or.inl ⟨hrc, rfl, rfl⟩⟩⟩
    simp [nk_container_delete, World.note, World.step, hload, hrun, hsig, hrc]
  rcases hk : env.kill (env.usleep s1 100000) c.init_pid 0 with ⟨k, s3⟩
  by_cases hk0 : k = 0
  swap
  · refine ⟨[.stdout ("  Stopping container (PID: " ++ toString c.init_pid ++ ")\n"),
        .nk_container_signal c.init_pid SIGTERM, .usleep 100000, .kill c.init_pid 0], s3, ?_,
      Or.inr ⟨hrun.1, hrun.2, rc, s1, rfl, Or.inr ⟨hrc, k, s3, hk, Or.inl ⟨hk0, rfl, rfl⟩⟩⟩⟩
    simp [nk_container_delete, World.note, World.step, hload, hrun, hsig, hrc, hk, hk0]
  · refine ⟨[.stdout ("  Stopping container (PID: " ++ toString c.init_pid ++ ")\n"),
        .nk_container_signal c.init_pid SIGTERM, .usleep 100000, .kill c.init_pid 0,
        .stdout "  Force killing...\n", .nk_container_signal c.init_pid SIGKILL],
      (env.nk_container_signal s3 c.init_pid SIGKILL).2, ?_,
      Or.inr ⟨hrun.1, hrun.2, rc, s1, rfl, Or.inr ⟨hrc, k, s3, hk, Or.inr ⟨hk0, rfl, rfl⟩⟩⟩⟩
    simp [nk_container_delete, World.note, World.step, hload, hrun, hsig, hrc, hk, hk0]

/-! ## Which calls each operation makes -/

theorem log_extends_refl {σ : Type} (P : Call → Prop) (w : World σ) : log_extends P w w :=
  ⟨[], by simp, by simp⟩

theorem log_extends_trans {σ : Type} {P : Call → Prop} {w1 w2 w3 : World σ}
    (h12 : log_extends P w1 w2) (h23 : log_extends P w2 w3) : log_extends P w1 w3 := by
  obtain ⟨l, hl, hP⟩ := h12
  obtain ⟨l', hl', hP'⟩ := h23
  refine ⟨l ++ l', by rw [hl', hl, List.append_assoc], ?_⟩
  intro c hc
  rcases List.mem_append.mp hc with hc | hc
  · exact hP c hc
  · exact hP' c hc

theorem log_extends_mono {σ : Type} {P Q : Call → Prop} {w1 w2 : World σ}
    (h : log_extends P w1 w2) (hPQ : ∀ c, P c → Q c) : log_extends Q w1 w2 := by
  obtain ⟨l, hl, hP⟩ := h
  exact ⟨l, hl, fun c hc => hPQ c (hP c hc)⟩

theorem log_extends_of_fs {σ : Type} {w1 w2 : World σ} (h : fs_extends w1 w2) :
    log_extends (fun c => c.is_teardown = false ∧ c.is_pid_file = false) w1 w2 := by
  obtain ⟨l, hl, hfs⟩ := h
  refine ⟨l, hl, fun c hc => ?_⟩
  have := hfs c hc
  cases c <;> simp_all [Call.is_fs, Call.is_teardown, Call.is_pid_file]

/-- The function `nk_container_create` makes no teardown call and no PID-file
call. -/
theorem nk_container_create_quiet {σ : Type} (env : Env σ) (opts : nk_options_t)
    (w : World σ) :
    log_extends (fun c => c.is_teardown = false ∧ c.is_pid_file = false) w
      (nk_container_create env opts w).2 := by
  have he := log_extends_of_fs (ensure_state_dir_log env w).2
  refine log_extends_trans he ?_
  rcases nk_container_create_cases env opts w _ rfl with
    ⟨-, h⟩ | ⟨-, -, h⟩ | ⟨-, -, -, h⟩ | ⟨spec, -, -, -, -, h⟩ |
    ⟨spec, t1, t2, -, -, -, -, -, h⟩ | ⟨spec, t1, t2, -, -, -, -, -, h⟩
  all_goals rw [h]
  · exact log_extends_refl _ _
  all_goals refine ⟨_, rfl, ?_⟩
  all_goals simp [Call.is_teardown, Call.is_pid_file]

/-- The function `nk_container_start` makes no teardown call and no PID-file
call. -/
theorem nk_container_start_quiet {σ : Type} (env : Env σ) (id : String) (attach : Bool)
    (w : World σ) :
    log_extends (fun c => c.is_teardown = false ∧ c.is_pid_file = false) w
      (nk_container_start env id attach w).w := by
  rcases nk_container_start_cases env id attach w with
    ⟨-, h⟩ | ⟨c, -, -, -, -, h⟩ |
    ⟨c, spec, process, root, t1, pid, s1, -, -, -, -, -, -, -,
      ⟨-, h⟩ | ⟨-, rc, s2, t2, t3, -,
        ⟨-, h⟩ | ⟨-, rcw, status, s3, -, ⟨-, h⟩ | ⟨-, rc2, s4, t4, -, h⟩⟩⟩⟩
  all_goals rw [h]
  all_goals refine ⟨_, rfl, ?_⟩
  all_goals simp [Call.is_teardown, Call.is_pid_file]

/-- The function `nk_container_run` once the id is present and create has
succeeded, in terms of the start and delete it goes on to call. -/
theorem nk_container_run_created {σ : Type} (env : Env σ) (o : nk_options_t) (w : World σ)
    (hid : o.container_id.isSome = true)
    (hc : (nk_container_create env o w).1 ≠ -1) :
    nk_container_run env o w =
      if (nk_container_start env o.id o.attach (nk_container_create env o w).2).ret = -1 then
        if o.rm = true then
          (-1, (nk_container_delete env o.id
            (nk_container_start env o.id o.attach (nk_container_create env o w).2).w).2)
        else (-1, (nk_container_start env o.id o.attach (nk_container_create env o w).2).w)
      else if o.rm = true then
        if (nk_container_delete env o.id
            (nk_container_start env o.id o.attach (nk_container_create env o w).2).w).1 = -1
        then (-1, (nk_container_delete env o.id
            (nk_container_start env o.id o.attach (nk_container_create env o w).2).w).2)
        else (if o.attach = true then
                (nk_container_start env o.id o.attach
                  (nk_container_create env o w).2).exit_code.getD 0
              else 0,
              (nk_container_delete env o.id
                (nk_container_start env o.id o.attach (nk_container_create env o w).2).w).2)
      else (if o.attach = true then
              (nk_container_start env o.id o.attach
                (nk_container_create env o w).2).exit_code.getD 0
            else 0,
            (nk_container_start env o.id o.attach (nk_container_create env o w).2).w) := by
  have hid' : o.container_id.isNone = false := by
    cases hcid : o.container_id
    · rw [hcid] at hid; simp at hid
    · rfl
  unfold nk_container_run
  simp only [hid', hc]
  simp

/-- Create followed by start makes no teardown call and no PID-file call. -/
theorem create_start_quiet {σ : Type} (env : Env σ) (o : nk_options_t) (w : World σ) :
    log_extends (fun c => c.is_teardown = false ∧ c.is_pid_file = false) w
      (nk_container_start env o.id o.attach (nk_container_create env o w).2).w :=
  log_extends_trans (nk_container_create_quiet env o w) (nk_container_start_quiet env _ _ _)

/-- C11: in `nk_container_run`, once the id is present and create has succeeded:
with `rm` set, the world `run` leaves is the one a single `nk_container_delete`
produces from the world `nk_container_start` returned, whether start succeeded
(with any exit code) or failed, and when delete finds the record the run makes
exactly one `nk_cgroup_cleanup` and one `nk_state_delete` call; with `rm` not
set, the world is the one start returned and the run makes no teardown call at
all, so a record left by a failed start stays; a failed start makes `run`
return -1; and when start succeeds in attached mode (and, under `rm`, delete
succeeds) `run` returns the container's exit code, the translation of the wait
status. -/
theorem C11_run_auto_remove {σ : Type} (env : Env σ) (o : nk_options_t) (w : World σ)
    (hid : o.container_id.isSome = true)
    (hc : (nk_container_create env o w).1 ≠ -1) :
    (o.rm = true →
      (nk_container_run env o w).2 =
        (nk_container_delete env o.id
          (nk_container_start env o.id o.attach (nk_container_create env o w).2).w).2 ∧
      ((∃ c, env.nk_state_load
          (nk_container_start env o.id o.attach (nk_container_create env o w).2).w.st o.id =
            some c) →
        ∃ l, (nk_container_run env o w).2.log = w.log ++ l ∧
          l.count (.nk_cgroup_cleanup o.id) = 1 ∧ l.count (.nk_state_delete o.id) = 1)) ∧
    (o.rm = false →
      (nk_container_run env o w).2 =
        (nk_container_start env o.id o.attach (nk_container_create env o w).2).w ∧
      log_extends (fun c => c.is_teardown = false) w (nk_container_run env o w).2) ∧
    ((nk_container_start env o.id o.attach (nk_container_create env o w).2).ret = -1 →
      (nk_container_run env o w).1 = -1) ∧
    (o.attach = true →
      (nk_container_start env o.id o.attach (nk_container_create env o w).2).ret = 0 →
      (o.rm = true →
        (nk_container_delete env o.id
          (nk_container_start env o.id o.attach (nk_container_create env o w).2).w).1 ≠ -1) →
      ∃ pid rc status l1 l2,
        (nk_container_start env o.id o.attach (nk_container_create env o w).2).w.log =
          (nk_container_create env o w).2.log ++ l1 ++
            [.nk_container_wait pid rc status] ++ l2 ∧
        rc ≠ -1 ∧
        (nk_container_run env o w).1 = wait_exit_code status) := by
  have hrun := nk_container_run_created env o w hid hc
  have hq := create_start_quiet env o w
  refine ⟨?_, ?_, ?_, ?_⟩
  · intro hrm
    constructor
    · rw [hrun]; simp only [hrm, if_true]
      split_ifs <;> rfl
    · rintro ⟨c, hload⟩
      have h2 : (nk_container_run env o w).2 = (nk_container_delete env o.id
          (nk_container_start env o.id o.attach (nk_container_create env o w).2).w).2 := by
        rw [hrun]; simp only [hrm, if_true]
        split_ifs <;> rfl
      obtain ⟨lq, hlq, hPq⟩ := hq
      obtain ⟨mid, s, hd, hmid⟩ := nk_container_delete_loaded env o.id _ c hload
      rw [h2, hd, hlq]
      refine ⟨_, (List.append_assoc _ _ _).trans ((List.append_assoc _ _ _).trans
        (List.append_assoc _ _ _)), ?_⟩
      have hz1 : lq.count (.nk_cgroup_cleanup o.id) = 0 :=
        List.count_eq_zero_of_not_mem (fun hm => by simpa [Call.is_teardown] using (hPq _ hm).1)
      have hz2 : lq.count (.nk_state_delete o.id) = 0 :=
        List.count_eq_zero_of_not_mem (fun hm => by simpa [Call.is_teardown] using (hPq _ hm).1)
      rcases hmid with ⟨-, hm, -⟩ |
        ⟨-, -, rc, s1, -, ⟨-, -, hm⟩ | ⟨-, k, s3, -, ⟨-, -, hm⟩ | ⟨-, -, hm⟩⟩⟩
      all_goals subst hm
      all_goals simp [List.count_append, List.count_cons, hz1, hz2]
  · intro hrm
    have h2 : (nk_container_run env o w).2 =
        (nk_container_start env o.id o.attach (nk_container_create env o w).2).w := by
      rw [hrun]; simp only [hrm, Bool.false_eq_true, if_false]
      split_ifs <;> rfl
    refine ⟨h2, ?_⟩
    rw [h2]
    exact log_extends_mono hq (fun c h => h.1)
  · intro hs
    rw [hrun]; simp only [hs, if_true]
    split_ifs <;> rfl
  · intro ha hs hdel
    rw [ha] at hs
    obtain ⟨pid, rc, status, l1, l2, hlog, hrc, hcode⟩ :=
      nk_container_start_attached_ok env o.id _ hs
    refine ⟨pid, rc, status, l1, l2, by rw [ha]; exact hlog, hrc, ?_⟩
    rw [hrun, ha]
    simp only [hs, hcode, Option.getD_some, if_true]
    by_cases hrm : o.rm = true
    · have := hdel hrm
      rw [ha] at this
      simp [hrm, this]
    · simp [hrm]

/-- Witness for C11: `prog run --rm -b ./bundle c1` in the simulation. -/
theorem C11_run_auto_remove_witness :
    (nk_container_run (sim_env (some sim_spec) 4242 (0, 1792) false true)
        sim_run_rm_bundle_opts sim_empty).2 =
      (nk_container_delete (sim_env (some sim_spec) 4242 (0, 1792) false true) "c1"
        (nk_container_start (sim_env (some sim_spec) 4242 (0, 1792) false true) "c1" true
          (nk_container_create (sim_env (some sim_spec) 4242 (0, 1792) false true)
            sim_run_rm_bundle_opts sim_empty).2).w).2 :=
  ((C11_run_auto_remove (sim_env (some sim_spec) 4242 (0, 1792) false true)
      sim_run_rm_bundle_opts sim_empty rfl (by decide)).1 rfl).1

/-! ## C14 -/

/-- C12, as the code has it: for a record loaded by `nk_container_delete` the
function returns 0, whatever the signal calls and the record removal return,
and its calls are, in order: the load; then the stop phase `mid`; then
`nk_cgroup_cleanup`; then `nk_state_delete`, after which only a line is
printed. The stop phase is empty (no signal is sent) unless the state is
`running` and `init_pid > 0`; otherwise it sends SIGTERM to `init_pid`, and only
when that call returned 0 it sleeps 100 ms and probes with `kill(pid, 0)`, and
sends SIGKILL exactly when the probe returned 0. When sending SIGTERM fails
there is neither a probe nor a SIGKILL. -/
theorem C12_delete_effect_sequence {σ : Type} (env : Env σ) (id : String) (w : World σ)
    (c : nk_container_t) (hload : env.nk_state_load w.st id = some c) :
    (nk_container_delete env id w).1 = 0 ∧
    ∃ (mid : List Call) (s : σ),
      (nk_container_delete env id w).2.st =
        (env.nk_state_delete (env.nk_cgroup_cleanup s id) id).2 ∧
      (nk_container_delete env id w).2.log =
        w.log ++ [.stdout ("Deleting container '" ++ id ++ "'\n"), .nk_state_load id] ++ mid ++
          [.nk_cgroup_cleanup id, .nk_state_delete id, .stdout "  Status: deleted\n"] ∧
      ((¬ (c.state = NK_STATE_RUNNING ∧ c.init_pid > 0) ∧ mid = [] ∧ s = w.st) ∨
       (c.state = NK_STATE_RUNNING ∧ c.init_pid > 0 ∧
        ∃ rc s1, env.nk_container_signal w.st c.init_pid SIGTERM = (rc, s1) ∧
          ((rc ≠ 0 ∧ s = s1 ∧
              mid = [.stdout ("  Stopping container (PID: " ++ toString c.init_pid ++ ")\n"),
                .nk_container_signal c.init_pid SIGTERM]) ∨
           (rc = 0 ∧ ∃ k s3, env.kill (env.usleep s1 100000) c.init_pid 0 = (k, s3) ∧
              ((k ≠ 0 ∧ s = s3 ∧
                  mid = [.stdout ("  Stopping container (PID: " ++ toString c.init_pid ++ ")\n"),
                    .nk_container_signal c.init_pid SIGTERM, .usleep 100000,
                    .kill c.init_pid 0]) ∨
               (k = 0 ∧ s = (env.nk_container_signal s3 c.init_pid SIGKILL).2 ∧
                  mid = [.stdout ("  Stopping container (PID: " ++ toString c.init_pid ++ ")\n"),
                    .nk_container_signal c.init_pid SIGTERM, .usleep 100000,
                    .kill c.init_pid 0, .stdout "  Force killing...\n",
                    .nk_container_signal c.init_pid SIGKILL])))))) := by
  obtain ⟨mid, s, h, hmid⟩ := nk_container_delete_loaded env id w c hload
  rw [h]
  exact ⟨rfl, mid, s, rfl, rfl, hmid⟩

/-- Witness for C12: deleting a running container whose init survives SIGTERM. -/
theorem C12_delete_effect_sequence_witness :
    (nk_container_delete (sim_env_signals 0 0) "c1"
        (sim_with (sim_record NK_STATE_RUNNING NK_MODE_CONTAINER 4242))).1 = 0 ∧
    Call.nk_container_signal 4242 SIGKILL ∈
      (nk_container_delete (sim_env_signals 0 0) "c1"
        (sim_with (sim_record NK_STATE_RUNNING NK_MODE_CONTAINER 4242))).2.log :=
  ⟨(C12_delete_effect_sequence (sim_env_signals 0 0) "c1"
      (sim_with (sim_record NK_STATE_RUNNING NK_MODE_CONTAINER 4242))
      (sim_record NK_STATE_RUNNING NK_MODE_CONTAINER 4242) (by decide)).1, by decide⟩

/-- C12 as stated fails: the record is `running` with `init_pid = 4242` and the
process is alive (a probe `kill(4242, 0)` would return 0), but sending SIGTERM
fails; `nk_container_delete` then makes no liveness probe and sends no SIGKILL,
and goes on to cgroup cleanup and record removal. -/
theorem C12_sigterm_failure_counterexample :
    (sim_env_signals (-1) 0).nk_state_load
        (sim_with (sim_record NK_STATE_RUNNING NK_MODE_CONTAINER 4242)).st "c1" =
      some (sim_record NK_STATE_RUNNING NK_MODE_CONTAINER 4242) ∧
    ((sim_env_signals (-1) 0).kill
        (sim_with (sim_record NK_STATE_RUNNING NK_MODE_CONTAINER 4242)).st 4242 0).1 = 0 ∧
    Call.nk_container_signal 4242 SIGTERM ∈
      (nk_container_delete (sim_env_signals (-1) 0) "c1"
        (sim_with (sim_record NK_STATE_RUNNING NK_MODE_CONTAINER 4242))).2.log ∧
    Call.kill 4242 0 ∉
      (nk_container_delete (sim_env_signals (-1) 0) "c1"
        (sim_with (sim_record NK_STATE_RUNNING NK_MODE_CONTAINER 4242))).2.log ∧
    Call.nk_container_signal 4242 SIGKILL ∉
      (nk_container_delete (sim_env_signals (-1) 0) "c1"
        (sim_with (sim_record NK_STATE_RUNNING NK_MODE_CONTAINER 4242))).2.log ∧
    Call.nk_state_delete "c1" ∈
      (nk_container_delete (sim_env_signals (-1) 0) "c1"
        (sim_with (sim_record NK_STATE_RUNNING NK_MODE_CONTAINER 4242))).2.log := by
  decide

/-- Examples for C13: one environment for each branch of the resolution. -/
theorem C13_get_state_dir_resolution_examples :
    get_state_dir (sim_env_vars (fun n => if n = "NS_RUN_DIR" then some "/a" else
      if n = "NK_RUN_DIR" then some "/b" else none) 0) sim_empty.st = "/a" ∧
    get_state_dir (sim_env_vars (fun n => if n = "NS_RUN_DIR" then some "" else
      if n = "NK_RUN_DIR" then some "/b" else none) 0) sim_empty.st = "/b" ∧
    get_state_dir (sim_env_vars (fun n => if n = "HOME" then some "/home/u" else none) 0)
      sim_empty.st = "/run/nano-sandbox" ∧
    get_state_dir (sim_env_vars (fun n => if n = "HOME" then some "/home/u" else none) 1000)
      sim_empty.st = "/home/u/.local/share/nano-sandbox/run" ∧
    get_state_dir (sim_env_vars (fun _ => none) 1000) sim_empty.st = "run" :=
  ⟨(C13_get_state_dir_resolution _ _).1.trans (by decide), by decide, by decide, by decide,
   by decide⟩

end NanoSandbox
